import Mathlib

/-!
Verification development for the ev-platform article scraper
(`src/scraper`): the classification → time-period resolution → field
extraction → OCR routing pipeline and the backfill orchestrator's
checkpoint/dedup logic.

The Python modules are shallowly embedded:

* `src/scraper/extractors/title_parser.py`   → the `tp*` definitions;
* `src/scraper/extractors/classifier.py`     → `classify` and the `cls*` pattern groups;
* `src/scraper/extractors/industry_extractor.py` → the `ie*` definitions;
* `src/scraper/extractors/image_ocr.py`      → `unwrapDataArray`, `calculate_ocr_cost`,
  `processOcrResponse`;
* `src/scraper/backfill_cnevdata.py`         → `runPagesAux` / `backfillPagesModel`,
  `Checkpoint`, `resumeStartPage`.

Python regular expressions are embedded in two ways: a small Brzozowski
derivative matcher (`RE`, `reSearch`) for the boolean classifier patterns,
and hand-rolled scanners for the patterns whose capture groups the code
consumes; every such definition carries the original pattern in a comment.
Python floats are modelled as exact decimal numbers (`Dec`, interpreted
into `ℚ` by `Dec.toQ`; every float this code manipulates is an exact
decimal, so this is lossless), machine integers as `Nat`/`ℤ`, `None` as
`Option`, and `datetime.now()` as an explicit `now : Date` argument.
-/

/-! ## Basic character and string machinery -/

/-- ASCII lower-casing of one character, as Python `str.lower` acts on ASCII. -/
def lowerChar (c : Char) : Char :=
  if 'A' ≤ c ∧ c ≤ 'Z' then Char.ofNat (c.toNat + 32) else c

/-- ASCII upper-casing of one character, as Python `str.upper` acts on ASCII. -/
def upperChar (c : Char) : Char :=
  if 'a' ≤ c ∧ c ≤ 'z' then Char.ofNat (c.toNat - 32) else c

/-- Python `s.lower()` (ASCII fragment). -/
def lowerStr (s : String) : String := String.mk (s.data.map lowerChar)

/-- Python `s.upper()` (ASCII fragment). -/
def upperStr (s : String) : String := String.mk (s.data.map upperChar)

/-- Python `s.title()` for a single lower-case word (used for region names). -/
def capitalizeWord (s : String) : String :=
  match s.data with
  | [] => ""
  | c :: rest => String.mk (upperChar c :: rest.map lowerChar)

def isDigitCh (c : Char) : Bool := '0' ≤ c && c ≤ '9'

/-- Python regex `\s` over ASCII: space, tab, newline, carriage return,
vertical tab, form feed. -/
def isSpaceCh (c : Char) : Bool :=
  c == ' ' || c == '\t' || c == '\n' || c == '\r' || c == '\x0b' || c == '\x0c'

/-- Python regex `\w` over ASCII: letters, digits, underscore. -/
def isWordCh (c : Char) : Bool :=
  isDigitCh c || ('a' ≤ c && c ≤ 'z') || ('A' ≤ c && c ≤ 'Z') || c == '_'

def digitVal (c : Char) : ℕ := c.toNat - '0'.toNat

/-- Value of a digit string, e.g. Python `int("2025")`. -/
def digitsToNat (ds : List Char) : ℕ := ds.foldl (fun a c => 10 * a + digitVal c) 0

/-! ## Exact decimal numbers

The Python code stores its numeric values in floats, but every value it
ever builds is an exact decimal (digit strings out of titles, the results
of multiplying those by powers of ten, and fixed decimal price constants),
and every operation it performs on them (sums, products with integers,
division by powers of ten, comparisons, `max`) is exact on decimals.  We
model such values by a mantissa/scale pair `mant / 10^scale` and interpret
them into `ℚ` for specification statements. -/

structure Dec where
  mant : ℤ
  scale : ℕ
deriving DecidableEq

/-- Interpretation of a decimal into `ℚ`. -/
def Dec.toQ (x : Dec) : ℚ := (x.mant : ℚ) / (10 : ℚ) ^ x.scale

def Dec.ofNat (n : ℕ) : Dec := ⟨(n : ℤ), 0⟩

/-- Comparison `a ≤ b` by cross-multiplication (exact). -/
def Dec.leB (a b : Dec) : Bool := a.mant * 10 ^ b.scale ≤ b.mant * 10 ^ a.scale

/-- Comparison `a < b` by cross-multiplication (exact). -/
def Dec.ltB (a b : Dec) : Bool := a.mant * 10 ^ b.scale < b.mant * 10 ^ a.scale

/-- Python `max` of two values (keeps the first argument on ties). -/
def Dec.maxD (a b : Dec) : Dec := if Dec.ltB a b then b else a

def Dec.negD (a : Dec) : Dec := ⟨-a.mant, a.scale⟩

/-- Multiplication by a natural number (used for the `million` scale-up). -/
def Dec.mulNat (a : Dec) (n : ℕ) : Dec := ⟨a.mant * (n : ℤ), a.scale⟩

/-- Addition (used only by the OCR cost computation). -/
def Dec.addD (a b : Dec) : Dec :=
  ⟨a.mant * 10 ^ (max a.scale b.scale - a.scale) +
    b.mant * 10 ^ (max a.scale b.scale - b.scale), max a.scale b.scale⟩

/-- Division by `10^k` (exact). -/
def Dec.divPow10 (a : Dec) (k : ℕ) : Dec := ⟨a.mant, a.scale + k⟩

theorem Dec.leB_iff (a b : Dec) : Dec.leB a b = true ↔ a.toQ ≤ b.toQ := by
  have ha : (0 : ℚ) < (10 : ℚ) ^ a.scale := by positivity
  have hb : (0 : ℚ) < (10 : ℚ) ^ b.scale := by positivity
  rw [Dec.leB, Dec.toQ, Dec.toQ, div_le_div_iff₀ ha hb, decide_eq_true_eq]
  constructor
  · intro h
    calc ((a.mant : ℚ)) * (10 : ℚ) ^ b.scale
        = ((a.mant * 10 ^ b.scale : ℤ) : ℚ) := by push_cast; ring
      _ ≤ ((b.mant * 10 ^ a.scale : ℤ) : ℚ) := by exact_mod_cast h
      _ = (b.mant : ℚ) * (10 : ℚ) ^ a.scale := by push_cast; ring
  · intro h
    have h' : ((a.mant * 10 ^ b.scale : ℤ) : ℚ) ≤ ((b.mant * 10 ^ a.scale : ℤ) : ℚ) := by
      calc ((a.mant * 10 ^ b.scale : ℤ) : ℚ)
          = (a.mant : ℚ) * (10 : ℚ) ^ b.scale := by push_cast; ring
        _ ≤ (b.mant : ℚ) * (10 : ℚ) ^ a.scale := h
        _ = ((b.mant * 10 ^ a.scale : ℤ) : ℚ) := by push_cast; ring
    exact_mod_cast h'

theorem Dec.toQ_ofNat (n : ℕ) : (Dec.ofNat n).toQ = (n : ℚ) := by
  simp [Dec.ofNat, Dec.toQ]

/-- Value of `<intPart>.<fracPart>`: models Python
`float("<intPart>.<fracPart>")`, exactly, as a decimal. -/
def decimalOfDigits (ip fp : List Char) : Dec :=
  ⟨(digitsToNat ip : ℤ) * 10 ^ fp.length + (digitsToNat fp : ℤ), fp.length⟩

/-- Does `hay` start with `needle`? -/
def startsWithL (needle hay : List Char) : Bool :=
  match needle, hay with
  | [], _ => true
  | _ :: _, [] => false
  | a :: as_, b :: bs => a == b && startsWithL as_ bs

/-- Does `needle` occur anywhere in `hay`?  Models Python `needle in hay`. -/
def containsL (needle : List Char) : List Char → Bool
  | [] => startsWithL needle []
  | c :: t => startsWithL needle (c :: t) || containsL needle t

/-- Python `needle in hay` on strings. -/
def containsSub (needle hay : String) : Bool := containsL needle.data hay.data

/-- Index of the leftmost occurrence of `needle` in `hay`. -/
def indexOfL (needle : List Char) : List Char → Option ℕ
  | [] => if startsWithL needle [] then some 0 else none
  | c :: t =>
    if startsWithL needle (c :: t) then some 0
    else (indexOfL needle t).map (· + 1)

/-- Does `needle` occur in `hay` starting exactly at index `i`? -/
def occursAt (needle hay : List Char) (i : ℕ) : Bool :=
  startsWithL needle (hay.drop i)

/-! ## A small regex matcher (Brzozowski derivatives)

Used to embed the classifier's boolean patterns, which are only ever
consumed through `bool(pattern.search(text))`.  `reSearch r s` is true
iff some substring of `s` matches `r` — exactly the boolean value of
Python `re.search`. -/

/-- Character classes occurring in the embedded patterns.
`any` is regex `.` and, as in Python without DOTALL, excludes newline. -/
inductive CC where
  | any
  | digit
  | space
  | one (c : Char)
  | among (cs : List Char)
deriving DecidableEq

def CC.test : CC → Char → Bool
  | .any, c => c != '\n'
  | .digit, c => isDigitCh c
  | .space, c => isSpaceCh c
  | .one d, c => c == d
  | .among cs, c => cs.contains c

inductive RE where
  | void
  | eps
  | cls (p : CC)
  | seq (a b : RE)
  | alt (a b : RE)
  | star (a : RE)
deriving DecidableEq

def RE.nullable : RE → Bool
  | .void => false
  | .eps => true
  | .cls _ => false
  | .seq a b => a.nullable && b.nullable
  | .alt a b => a.nullable || b.nullable
  | .star _ => true

/-- Smart `seq` constructor keeping derivative terms small. -/
def mkSeq : RE → RE → RE
  | .void, _ => .void
  | _, .void => .void
  | .eps, b => b
  | a, .eps => a
  | a, b => .seq a b

/-- Smart `alt` constructor keeping derivative terms small. -/
def mkAlt : RE → RE → RE
  | .void, b => b
  | a, .void => a
  | a, b => if a = b then a else .alt a b

def RE.deriv : RE → Char → RE
  | .void, _ => .void
  | .eps, _ => .void
  | .cls p, c => if p.test c then .eps else .void
  | .seq a b, c =>
    if a.nullable then mkAlt (mkSeq (a.deriv c) b) (b.deriv c)
    else mkSeq (a.deriv c) b
  | .alt a b, c => mkAlt (a.deriv c) (b.deriv c)
  | .star a, c => mkSeq (a.deriv c) (.star a)

/-- Does some prefix of the input match `r`? -/
def matchesPre (r : RE) : List Char → Bool
  | [] => r.nullable
  | c :: cs => r.nullable || matchesPre (r.deriv c) cs

/-- Does some substring of the input match `r`?  This is the boolean
value of Python `re.search(r, input)`. -/
def reSearchL (r : RE) : List Char → Bool
  | [] => matchesPre r []
  | c :: cs => matchesPre r (c :: cs) || reSearchL r cs

def reSearch (r : RE) (s : String) : Bool := reSearchL r s.data

/-! Combinators for transcribing patterns. -/

/-- Literal string as a regex. -/
def lit (s : String) : RE :=
  s.data.foldr (fun c r => RE.seq (RE.cls (CC.one c)) r) RE.eps

def reSeqs (l : List RE) : RE := l.foldr RE.seq RE.eps

def reAlts (l : List RE) : RE :=
  match l with
  | [] => RE.void
  | r :: rs => rs.foldl RE.alt r

/-- Alternation of literals, regex `(?:a|b|...)`. -/
def litAlts (ss : List String) : RE := reAlts (ss.map lit)

/-- Regex `\s*`. -/
def sp : RE := RE.star (RE.cls CC.space)

/-- Regex `.*`. -/
def dotStar : RE := RE.star (RE.cls CC.any)

/-- Regex `r?`. -/
def reOpt (r : RE) : RE := RE.alt r RE.eps

/-- Regex `\d`. -/
def dch : RE := RE.cls CC.digit

/-- Regex `r+`. -/
def rePlus (r : RE) : RE := RE.seq r (RE.star r)

/-! ## Number-token machinery shared by both value extractors

Both `TitleParser._extract_value` and
`IndustryDataExtractor._extract_value` tokenise the title with the
pattern `[\d,]+(?:\.\d+)?` (`findall`, i.e. non-overlapping leftmost
matches) and run each token through `float(token.replace(",", ""))`,
skipping tokens that fail to parse. -/

def isNumRunCh (c : Char) : Bool := isDigitCh c || c == ','

/-- All matches of `[\d,]+(?:\.\d+)?` in the input, leftmost and
non-overlapping, each maximal (the pattern is greedy).  The `fuel`
argument only bounds the recursion; it is instantiated with the input
length, which always suffices since every step consumes a character. -/
def findNumberTokensF : ℕ → List Char → List (List Char)
  | 0, _ => []
  | _, [] => []
  | fuel + 1, c :: rest =>
    if isNumRunCh c then
      let run := (c :: rest).takeWhile isNumRunCh
      let rest1 := (c :: rest).dropWhile isNumRunCh
      match rest1 with
      | '.' :: r2 =>
        let frac := r2.takeWhile isDigitCh
        if frac.isEmpty then run :: findNumberTokensF fuel rest1
        else (run ++ '.' :: frac) :: findNumberTokensF fuel (r2.dropWhile isDigitCh)
      | _ => run :: findNumberTokensF fuel rest1
    else findNumberTokensF fuel rest

def findNumberTokens (l : List Char) : List (List Char) := findNumberTokensF l.length l

/-- Python `float(tok.replace(",", ""))`, `none` when that raises
`ValueError` (which, for these tokens, happens exactly when nothing but
commas remains). -/
def parseNumToken (tok : List Char) : Option Dec :=
  let clean := tok.filter (fun c => c != ',')
  if clean.isEmpty then none
  else
    let ip := clean.takeWhile (fun c => c != '.')
    match clean.dropWhile (fun c => c != '.') with
    | '.' :: fp => some (decimalOfDigits ip fp)
    | _ => some (Dec.ofNat (digitsToNat ip))

/-- Python `max(values)` for a possibly-empty list (first maximum wins,
as for Python `max`). -/
def maxDecList : List Dec → Option Dec
  | [] => none
  | v :: vs => some (vs.foldl Dec.maxD v)

/-- Scanner for `(\d+(?:\.\d+)?)\s*LIT` (leftmost match), returning the
captured number.  Greedy matching of `\d+` and the optional fraction is
equivalent to maximal munch here because the characters that follow a
shortened match could only be digits or a dot, which can start neither
`\s*`-then-literal nor the literal. -/
def tryNumLit (litStr : String) (l : List Char) : Option Dec :=
  let ip := l.takeWhile isDigitCh
  let r1 := l.dropWhile isDigitCh
  let fr : List Char × List Char :=
    match r1 with
    | '.' :: rr =>
      let f := rr.takeWhile isDigitCh
      if f.isEmpty then ([], r1) else (f, rr.dropWhile isDigitCh)
    | _ => ([], r1)
  let r3 := fr.2.dropWhile isSpaceCh
  if startsWithL litStr.data r3 then some (decimalOfDigits ip fr.1) else none

def scanNumBeforeLitGo (litStr : String) : List Char → Option Dec
  | [] => none
  | c :: rest =>
    if isDigitCh c then
      match tryNumLit litStr (c :: rest) with
      | some v => some v
      | none => scanNumBeforeLitGo litStr rest
    else scanNumBeforeLitGo litStr rest

def scanNumBeforeLit (litStr : String) (l : List Char) : Option Dec :=
  scanNumBeforeLitGo litStr l

/-! ## Classifier (`src/scraper/extractors/classifier.py`)

Each pattern list below transcribes the class-level regex list of
`ArticleClassifier`; the original pattern is given in the comment above
each entry.  All of them are searched against the lower-cased title
(the source compiles them with `re.IGNORECASE` and searches
`title.lower()`, so lower-case literals are exact). -/

inductive ArticleType where
  | CHINA_PASSENGER_INVENTORY
  | CHINA_BATTERY_INSTALLATION
  | CAAM_NEV_SALES
  | CHINA_DEALER_INVENTORY_FACTOR
  | CPCA_NEV_RETAIL
  | CPCA_NEV_PRODUCTION
  | CHINA_VIA_INDEX
  | BATTERY_MAKER_MONTHLY
  | PLANT_EXPORTS
  | AUTOMAKER_RANKINGS
  | BATTERY_MAKER_RANKINGS
  | NEV_SALES_SUMMARY
  | BRAND_METRIC
  | MODEL_BREAKDOWN
  | REGIONAL_DATA
  | VEHICLE_SPEC
  | SKIP
deriving DecidableEq

structure ClassificationResult where
  article_type : ArticleType
  target_table : Option String
  needs_ocr : Bool
  dimensions : List (String × String)
  confidence : ℚ
  ocr_data_type : Option String

/-- `ArticleClassifier._match_any`. -/
def matchAnyRE (ps : List RE) (s : String) : Bool := ps.any (fun p => reSearch p s)

/-- `PASSENGER_INVENTORY_PATTERNS`. -/
def passengerInventoryPatterns : List RE :=
  [ -- r"passenger\s*car\s*inventor"
    reSeqs [lit "passenger", sp, lit "car", sp, lit "inventor"],
    -- r"china\s*(?:auto|car|vehicle)\s*inventor"
    reSeqs [lit "china", sp, litAlts ["auto", "car", "vehicle"], sp, lit "inventor"] ]

/-- `CHINA_BATTERY_PATTERNS`. -/
def chinaBatteryPatterns : List RE :=
  [ -- r"china\s*(?:ev\s*)?battery\s*install"
    reSeqs [lit "china", sp, reOpt (RE.seq (lit "ev") sp), lit "battery", sp, lit "install"],
    -- r"power\s*battery\s*install.*china"
    reSeqs [lit "power", sp, lit "battery", sp, lit "install", dotStar, lit "china"],
    -- r"china\s*power\s*battery"
    reSeqs [lit "china", sp, lit "power", sp, lit "battery"] ]

/-- `CAAM_PATTERNS`. -/
def caamPatterns : List RE :=
  [ -- r"caam\s*(?:nev|ev|new\s*energy)"
    reSeqs [lit "caam", sp, reAlts [lit "nev", lit "ev", reSeqs [lit "new", sp, lit "energy"]]],
    -- r"caam.*sales"
    reSeqs [lit "caam", dotStar, lit "sales"],
    -- r"nev\s*sales.*(?:by\s*)?caam"
    reSeqs [lit "nev", sp, lit "sales", dotStar, reOpt (RE.seq (lit "by") sp), lit "caam"],
    -- r"sales\s*data\s*(?:by\s*)?caam"
    reSeqs [lit "sales", sp, lit "data", sp, reOpt (RE.seq (lit "by") sp), lit "caam"] ]

/-- `DEALER_INVENTORY_PATTERNS`. -/
def dealerInventoryPatterns : List RE :=
  [ -- r"dealer\s*inventor.*(?:factor|coefficient|ratio)"
    reSeqs [lit "dealer", sp, lit "inventor", dotStar, litAlts ["factor", "coefficient", "ratio"]],
    -- r"inventor.*(?:factor|coefficient).*dealer"
    reSeqs [lit "inventor", dotStar, litAlts ["factor", "coefficient"], dotStar, lit "dealer"] ]

/-- `CPCA_RETAIL_PATTERNS`. -/
def cpcaRetailPatterns : List RE :=
  [ -- r"cpca.*nev.*retail"
    reSeqs [lit "cpca", dotStar, lit "nev", dotStar, lit "retail"],
    -- r"cpca.*retail.*nev"
    reSeqs [lit "cpca", dotStar, lit "retail", dotStar, lit "nev"],
    -- r"nev\s*retail\s*sales.*cpca"
    reSeqs [lit "nev", sp, lit "retail", sp, lit "sales", dotStar, lit "cpca"],
    -- r"nev\s*retail\s*(?:data\s*)?(?:by\s*)?cpca"
    reSeqs [lit "nev", sp, lit "retail", sp, reOpt (RE.seq (lit "data") sp),
      reOpt (RE.seq (lit "by") sp), lit "cpca"],
    -- r"retail\s*(?:data|sales)\s*(?:by\s*)?cpca"
    reSeqs [lit "retail", sp, litAlts ["data", "sales"], sp, reOpt (RE.seq (lit "by") sp),
      lit "cpca"] ]

/-- `CPCA_PRODUCTION_PATTERNS`. -/
def cpcaProductionPatterns : List RE :=
  [ -- r"cpca.*nev.*production"
    reSeqs [lit "cpca", dotStar, lit "nev", dotStar, lit "production"],
    -- r"cpca.*production.*nev"
    reSeqs [lit "cpca", dotStar, lit "production", dotStar, lit "nev"],
    -- r"nev\s*production.*cpca"
    reSeqs [lit "nev", sp, lit "production", dotStar, lit "cpca"],
    -- r"nev\s*production\s*(?:data\s*)?(?:by\s*)?cpca"
    reSeqs [lit "nev", sp, lit "production", sp, reOpt (RE.seq (lit "data") sp),
      reOpt (RE.seq (lit "by") sp), lit "cpca"],
    -- r"production\s*(?:data|output)\s*(?:by\s*)?cpca"
    reSeqs [lit "production", sp, litAlts ["data", "output"], sp,
      reOpt (RE.seq (lit "by") sp), lit "cpca"] ]

/-- `VIA_INDEX_PATTERNS`. -/
def viaIndexPatterns : List RE :=
  [ -- r"via\s*index"
    reSeqs [lit "via", sp, lit "index"],
    -- r"vehicle\s*inventory\s*alert\s*index"
    reSeqs [lit "vehicle", sp, lit "inventory", sp, lit "alert", sp, lit "index"],
    -- r"inventory\s*alert\s*index"
    reSeqs [lit "inventory", sp, lit "alert", sp, lit "index"] ]

/-- The maker alternation of `BATTERY_MAKER_MONTHLY_PATTERNS`:
`(?:catl|byd|lg|sk|panasonic|calb|gotion|eve|sunwoda)`. -/
def monthlyMakerAlts : List String :=
  ["catl", "byd", "lg", "sk", "panasonic", "calb", "gotion", "eve", "sunwoda"]

/-- The keyword alternation of `BATTERY_MAKER_MONTHLY_PATTERNS`:
`(?:battery|install|gwh)`. -/
def batteryWordAlts : List String := ["battery", "install", "gwh"]

/-- Boolean value of `re.search` for a pattern of the shape
`(?:a1|a2|...)(.*)(?:b1|b2|...)`: true iff some alternative of the first
group occurs at some index `i`, some alternative of the second group
occurs at some index `j ≥ i + len`, and the gap contains no newline
(regex `.` does not cross newlines).  This existential formulation is
exactly what backtracking search decides. -/
def searchAThenB (alts1 alts2 : List String) (hay : String) : Bool :=
  let h := hay.data
  (List.range (h.length + 1)).any fun i =>
    alts1.any fun a =>
      occursAt a.data h i &&
      (List.range (h.length + 1)).any fun j =>
        decide (i + a.data.length ≤ j) &&
        ((h.take j).drop (i + a.data.length)).all (fun c => c != '\n') &&
        alts2.any fun b => occursAt b.data h j

/-- `BATTERY_MAKER_MONTHLY_PATTERNS` as the disjunction of its two rows:
`(?:catl|...|sunwoda).*(?:battery|install|gwh)` and
`(?:battery|install|gwh).*(?:catl|...|sunwoda)`. -/
def batteryMakerMonthlyMatch (titleLower : String) : Bool :=
  searchAThenB monthlyMakerAlts batteryWordAlts titleLower ||
  searchAThenB batteryWordAlts monthlyMakerAlts titleLower

/-- `PLANT_EXPORTS_PATTERNS`. -/
def plantExportsPatterns : List RE :=
  [ -- r"(?:tesla|byd).*(?:shanghai|shenzhen|changsha).*export"
    reSeqs [litAlts ["tesla", "byd"], dotStar, litAlts ["shanghai", "shenzhen", "changsha"],
      dotStar, lit "export"],
    -- r"(?:shanghai|shenzhen|changsha).*(?:plant|factory).*export"
    reSeqs [litAlts ["shanghai", "shenzhen", "changsha"], dotStar, litAlts ["plant", "factory"],
      dotStar, lit "export"],
    -- r"export.*(?:tesla|byd).*(?:shanghai|shenzhen|changsha)"
    reSeqs [lit "export", dotStar, litAlts ["tesla", "byd"], dotStar,
      litAlts ["shanghai", "shenzhen", "changsha"]] ]

/-- Regex for a day range: one or two digits, a dash-or-slash class,
one or two digits (the source writes the class as dash, slash). -/
def dayRangeRE : RE :=
  reSeqs [dch, reOpt dch, RE.cls (CC.among ['-', '/']), dch, reOpt dch]

/-- `NEV_SALES_SUMMARY_PATTERNS`. -/
def nevSalesSummaryPatterns : List RE :=
  [ -- r"nev\s*sales.*\d{1,2}[-/]\d{1,2}"
    reSeqs [lit "nev", sp, lit "sales", dotStar, dayRangeRE],
    -- r"\d{1,2}[-/]\d{1,2}.*nev\s*sales"
    reSeqs [dayRangeRE, dotStar, lit "nev", sp, lit "sales"],
    -- r"cpca.*weekly.*nev"
    reSeqs [lit "cpca", dotStar, lit "weekly", dotStar, lit "nev"],
    -- r"weekly.*cpca.*nev"
    reSeqs [lit "weekly", dotStar, lit "cpca", dotStar, lit "nev"] ]

/-- `AUTOMAKER_RANKINGS_PATTERNS`. -/
def automakerRankingsPatterns : List RE :=
  [ -- r"cpca.*(?:top|ranking).*(?:automaker|brand|maker)"
    reSeqs [lit "cpca", dotStar, litAlts ["top", "ranking"], dotStar,
      litAlts ["automaker", "brand", "maker"]],
    -- r"(?:top|ranking).*(?:automaker|brand|maker).*cpca"
    reSeqs [litAlts ["top", "ranking"], dotStar, litAlts ["automaker", "brand", "maker"],
      dotStar, lit "cpca"],
    -- r"top[-\s]*(?:10|20|15).*(?:automaker|brand|maker)"
    reSeqs [lit "top",
      RE.star (RE.cls (CC.among ['-', ' ', '\t', '\n', '\r', '\x0b', '\x0c'])),
      litAlts ["10", "20", "15"], dotStar, litAlts ["automaker", "brand", "maker"]],
    -- r"(?:automaker|brand|maker).*(?:top|ranking)"
    reSeqs [litAlts ["automaker", "brand", "maker"], dotStar, litAlts ["top", "ranking"]] ]

/-- `BATTERY_MAKER_RANKINGS_PATTERNS`. -/
def batteryMakerRankingsPatterns : List RE :=
  [ -- r"top.*battery\s*maker"
    reSeqs [lit "top", dotStar, lit "battery", sp, lit "maker"],
    -- r"battery\s*maker.*(?:ranking|top)"
    reSeqs [lit "battery", sp, lit "maker", dotStar, litAlts ["ranking", "top"]],
    -- r"(?:cabia|sne).*battery.*ranking"
    reSeqs [litAlts ["cabia", "sne"], dotStar, lit "battery", dotStar, lit "ranking"],
    -- r"global.*battery.*ranking"
    reSeqs [lit "global", dotStar, lit "battery", dotStar, lit "ranking"] ]

/-- `self._number_pattern`: `\d{1,3}(?:,\d{3})+|\d{4,}` — a comma-grouped
number or a bare run of at least four digits.  Searched against the raw
(not lower-cased) title by `_has_number`. -/
def clsNumberPattern : RE :=
  RE.alt
    (reSeqs [dch, reOpt dch, reOpt dch,
      rePlus (reSeqs [RE.cls (CC.one ','), dch, dch, dch])])
    (reSeqs [dch, dch, dch, dch, RE.star dch])

/-- `ArticleClassifier._has_number`. -/
def clsHasNumber (text : String) : Bool := reSearch clsNumberPattern text

/-- `ArticleClassifier.SPEC_KEYWORDS`. -/
def SPEC_KEYWORDS : List String := ["main specs", "specifications", "spec sheet", "key specs"]

/-- `ArticleClassifier.BREAKDOWN_KEYWORDS`. -/
def BREAKDOWN_KEYWORDS : List String := ["breakdown", "model breakdown", "by model"]

/-- `ArticleClassifier.REGIONS`. -/
def clsREGIONS : List String :=
  ["shanghai", "beijing", "guangdong", "shenzhen", "hangzhou",
   "guangzhou", "jiangsu", "zhejiang", "sichuan", "chengdu",
   "tianjin", "chongqing", "hubei", "wuhan"]

/-- `ArticleClassifier.BATTERY_MAKERS`. -/
def clsBATTERY_MAKERS : List String :=
  ["catl", "byd", "lg", "sk", "panasonic", "calb", "gotion",
   "eve", "sunwoda", "svolt", "lishen", "farasis"]

/-- The rankings scope post-filter of the battery-maker-rankings
branch: `"GLOBAL" if "global" in title_lower else "CHINA"`. -/
def clsScope (titleLower : String) : String :=
  if containsSub "global" titleLower then "GLOBAL" else "CHINA"

/-- `ArticleClassifier._extract_battery_maker`: first maker whose name
occurs in the lower-cased title, upper-cased. -/
def extractBatteryMaker (titleLower : String) : Option String :=
  (clsBATTERY_MAKERS.find? (fun m => containsSub m titleLower)).map upperStr

/-- `ArticleClassifier._extract_region`: first region whose name occurs
in the lower-cased title, capitalized (Python `str.title()`). -/
def extractRegion (titleLower : String) : Option String :=
  (clsREGIONS.find? (fun r => containsSub r titleLower)).map capitalizeWord

/-- Sales keywords of the `BRAND_METRIC` fallback group. -/
def salesKeywords : List String := ["deliveries", "delivery", "sales", "sold", "wholesale"]

/-- `ArticleClassifier.classify`: the ordered pattern-group chain.  Each
branch mirrors one `return` of the source; the group order (VIA index,
dealer inventory, battery-maker rankings, automaker rankings, NEV sales
summary, plant exports, battery-maker monthly, China battery
installation, CAAM, CPCA production, CPCA retail, passenger inventory,
vehicle specs, model breakdown, regional, brand metric, SKIP) is the
source order.  In the battery-maker-monthly and regional branches the
source binds the extracted maker/region before testing it; the `getD ""`
here is only evaluated under the `isSome` guard and equals that binding. -/
def classify (title summary : String) : ClassificationResult :=
  let title_lower := lowerStr title
  let has_number := clsHasNumber title
  if matchAnyRE viaIndexPatterns title_lower then
    { article_type := .CHINA_VIA_INDEX, target_table := some "ChinaViaIndex",
      needs_ocr := !has_number, dimensions := [], confidence := 0.95,
      ocr_data_type := some "chart" }
  else if matchAnyRE dealerInventoryPatterns title_lower then
    { article_type := .CHINA_DEALER_INVENTORY_FACTOR,
      target_table := some "ChinaDealerInventoryFactor",
      needs_ocr := !has_number, dimensions := [], confidence := 0.95,
      ocr_data_type := some "chart" }
  else if matchAnyRE batteryMakerRankingsPatterns title_lower then
    { article_type := .BATTERY_MAKER_RANKINGS, target_table := some "BatteryMakerRankings",
      needs_ocr := true,
      dimensions := [("scope", clsScope title_lower)],
      confidence := 0.9, ocr_data_type := some "rankings" }
  else if matchAnyRE automakerRankingsPatterns title_lower then
    { article_type := .AUTOMAKER_RANKINGS, target_table := some "AutomakerRankings",
      needs_ocr := true, dimensions := [], confidence := 0.9,
      ocr_data_type := some "rankings" }
  else if matchAnyRE nevSalesSummaryPatterns title_lower then
    { article_type := .NEV_SALES_SUMMARY, target_table := some "NevSalesSummary",
      needs_ocr := !has_number, dimensions := [], confidence := 0.9,
      ocr_data_type := some "trend" }
  else if matchAnyRE plantExportsPatterns title_lower then
    { article_type := .PLANT_EXPORTS, target_table := some "PlantExports",
      needs_ocr := !has_number, dimensions := [], confidence := 0.9,
      ocr_data_type := some "chart" }
  else if (extractBatteryMaker title_lower).isSome && batteryMakerMonthlyMatch title_lower then
    { article_type := .BATTERY_MAKER_MONTHLY, target_table := some "BatteryMakerMonthly",
      needs_ocr := !has_number,
      dimensions := [("maker", (extractBatteryMaker title_lower).getD "")],
      confidence := 0.9, ocr_data_type := some "chart" }
  else if matchAnyRE chinaBatteryPatterns title_lower then
    { article_type := .CHINA_BATTERY_INSTALLATION,
      target_table := some "ChinaBatteryInstallation",
      needs_ocr := !has_number, dimensions := [], confidence := 0.9,
      ocr_data_type := some "chart" }
  else if matchAnyRE caamPatterns title_lower then
    { article_type := .CAAM_NEV_SALES, target_table := some "CaamNevSales",
      needs_ocr := !has_number, dimensions := [], confidence := 0.9,
      ocr_data_type := some "chart" }
  else if matchAnyRE cpcaProductionPatterns title_lower then
    { article_type := .CPCA_NEV_PRODUCTION, target_table := some "CpcaNevProduction",
      needs_ocr := !has_number, dimensions := [], confidence := 0.9,
      ocr_data_type := some "chart" }
  else if matchAnyRE cpcaRetailPatterns title_lower then
    { article_type := .CPCA_NEV_RETAIL, target_table := some "CpcaNevRetail",
      needs_ocr := !has_number, dimensions := [], confidence := 0.9,
      ocr_data_type := some "chart" }
  else if matchAnyRE passengerInventoryPatterns title_lower then
    { article_type := .CHINA_PASSENGER_INVENTORY,
      target_table := some "ChinaPassengerInventory",
      needs_ocr := !has_number, dimensions := [], confidence := 0.9,
      ocr_data_type := some "chart" }
  else if SPEC_KEYWORDS.any (fun kw => containsSub kw title_lower) then
    { article_type := .VEHICLE_SPEC, target_table := some "VehicleSpec",
      needs_ocr := true, dimensions := [], confidence := 0.95,
      ocr_data_type := some "specs" }
  else if BREAKDOWN_KEYWORDS.any (fun kw => containsSub kw title_lower) then
    { article_type := .MODEL_BREAKDOWN, target_table := some "EVMetric",
      needs_ocr := !has_number, dimensions := [("vehicleModel", "parse_from_content")],
      confidence := 0.9, ocr_data_type := none }
  else if (extractRegion title_lower).isSome then
    { article_type := .REGIONAL_DATA, target_table := some "EVMetric",
      needs_ocr := !has_number,
      dimensions := [("region", (extractRegion title_lower).getD "")],
      confidence := 0.9, ocr_data_type := none }
  else if salesKeywords.any (fun kw => containsSub kw title_lower) then
    { article_type := .BRAND_METRIC, target_table := some "EVMetric",
      needs_ocr := !has_number, dimensions := [], confidence := 0.95,
      ocr_data_type := none }
  else
    { article_type := .SKIP, target_table := none, needs_ocr := false,
      dimensions := [], confidence := 0.5, ocr_data_type := none }

/-! ## Title parser (`src/scraper/extractors/title_parser.py`) -/

/-- Calendar date; models the `datetime` values the scraper passes
around (their time-of-day part is never consumed by the embedded code
except through `isoformat`, which we render with a zero time). -/
structure Date where
  year : ℕ
  month : ℕ
  day : ℕ
deriving DecidableEq

/-- `TitleParser.BRAND_MAPPINGS` in dict insertion order. -/
def BRAND_MAPPINGS : List (String × String) :=
  [("byd", "BYD"), ("nio", "NIO"), ("xpeng", "XPENG"), ("li auto", "LI_AUTO"),
   ("li", "LI_AUTO"), ("zeekr", "ZEEKR"), ("xiaomi", "XIAOMI"),
   ("tesla", "TESLA_CHINA"), ("tesla china", "TESLA_CHINA"),
   ("china", "INDUSTRY"), ("nev", "INDUSTRY"), ("ev", "INDUSTRY"),
   ("geely", "GEELY"), ("leapmotor", "LEAPMOTOR"),
   ("changan", "OTHER_BRAND"), ("saic", "OTHER_BRAND"), ("gac", "OTHER_BRAND"),
   ("dongfeng", "OTHER_BRAND"), ("faw", "OTHER_BRAND"), ("great wall", "OTHER_BRAND"),
   ("chery", "OTHER_BRAND"), ("neta", "OTHER_BRAND"), ("hozon", "OTHER_BRAND"),
   ("avatr", "OTHER_BRAND"), ("im", "OTHER_BRAND"), ("rising", "OTHER_BRAND"),
   ("aion", "OTHER_BRAND"), ("denza", "OTHER_BRAND"), ("yangwang", "OTHER_BRAND"),
   ("jiyue", "OTHER_BRAND"), ("deepal", "OTHER_BRAND"), ("voyah", "OTHER_BRAND"),
   ("arcfox", "OTHER_BRAND"), ("ora", "OTHER_BRAND"), ("wuling", "OTHER_BRAND"),
   ("hongqi", "OTHER_BRAND"), ("hiphi", "OTHER_BRAND"), ("volvo", "OTHER_BRAND"),
   ("polestar", "OTHER_BRAND"), ("bmw", "OTHER_BRAND"), ("mercedes", "OTHER_BRAND"),
   ("audi", "OTHER_BRAND"), ("volkswagen", "OTHER_BRAND"), ("vw", "OTHER_BRAND"),
   ("hyundai", "OTHER_BRAND"), ("kia", "OTHER_BRAND")]

/-- One step of a stable insertion sort by descending keyword length:
the new element goes after every element of keyword length ≥ its own. -/
def insertByLenDesc (x : String × String) : List (String × String) → List (String × String)
  | [] => [x]
  | y :: ys =>
    if y.1.length < x.1.length then x :: y :: ys else y :: insertByLenDesc x ys

/-- Stable sort by descending keyword length; models Python
`sorted(items, key=lambda x: len(x[0]), reverse=True)`, which is stable. -/
def sortByLenDesc (l : List (String × String)) : List (String × String) :=
  l.foldl (fun acc x => insertByLenDesc x acc) []

/-- The brand keyword list in the order `_extract_brand` scans it
(longest keyword first, insertion order on ties). -/
def brandMappingsSorted : List (String × String) := sortByLenDesc BRAND_MAPPINGS

/-- `TitleParser._extract_brand`. -/
def tpExtractBrand (titleLower : String) : Option String :=
  (brandMappingsSorted.find? (fun kv => containsSub kv.1 titleLower)).map (·.2)

/-- `TitleParser.METRIC_KEYWORDS` in dict insertion order. -/
def METRIC_KEYWORDS : List (String × String) :=
  [("deliveries", "DELIVERY"), ("delivery", "DELIVERY"), ("delivered", "DELIVERY"),
   ("sales", "SALES"), ("sold", "SALES"), ("retail", "SALES"),
   ("wholesale", "WHOLESALE"),
   ("production", "PRODUCTION"), ("produced", "PRODUCTION"), ("output", "PRODUCTION"),
   ("battery", "BATTERY_INSTALL"), ("battery install", "BATTERY_INSTALL"),
   ("battery installation", "BATTERY_INSTALL"), ("gwh", "BATTERY_INSTALL"),
   ("exports", "EXPORTS"), ("export", "EXPORTS"),
   ("imports", "IMPORTS"), ("import", "IMPORTS"),
   ("registrations", "REGISTRATIONS"), ("license plate", "REGISTRATIONS"),
   ("inventory", "DEALER_INVENTORY")]

/-- `TitleParser._extract_metric_type`. -/
def tpExtractMetricType (titleLower : String) : Option String :=
  (METRIC_KEYWORDS.find? (fun kv => containsSub kv.1 titleLower)).map (·.2)

/-- The month-name dictionary, in insertion order.  The source writes
this mapping out three times with identical content
(`TitleParser.MONTH_NAMES`, and local `month_map`s in
`IndustryDataExtractor._extract_time_period` and
`_extract_nev_sales_summary`); we define it once. -/
def monthNameMap : List (String × ℕ) :=
  [("jan", 1), ("january", 1), ("feb", 2), ("february", 2),
   ("mar", 3), ("march", 3), ("apr", 4), ("april", 4),
   ("may", 5), ("jun", 6), ("june", 6), ("jul", 7), ("july", 7),
   ("aug", 8), ("august", 8), ("sep", 9), ("sept", 9), ("september", 9),
   ("oct", 10), ("october", 10), ("nov", 11), ("november", 11),
   ("dec", 12), ("december", 12)]

/-- The apostrophe character (written via its code point to keep the
source free of quote-in-quote literals). -/
def apostrophe : Char := Char.ofNat 39

/-- The optional year group that follows a quarter or month token:
regex fragment with optional apostrophe then two-to-four digits, greedy.
Returns the captured digit string (`none` when the group is absent):
after skipping spaces and one optional apostrophe, a greedy run of at
least two digits, truncated at four. -/
def grabYearGroup (l : List Char) : Option (List Char) :=
  let l1 := l.dropWhile isSpaceCh
  let l2 := if l1.head? == some apostrophe then l1.tail else l1
  let ds := l2.takeWhile isDigitCh
  if 2 ≤ ds.length then some (ds.take 4) else none

/-- Python `int(year_str) if len(year_str) == 4 else 2000 + int(year_str)`. -/
def yearFromGroup (ds : List Char) : ℕ :=
  if ds.length == 4 then digitsToNat ds else 2000 + digitsToNat ds

/-- Scanner for the quarter pattern: `q` then a digit 1-4, then the
optional year group (leftmost match).  Returns the quarter and the
captured year digits. -/
def scanQuarterL : List Char → Option (ℕ × Option (List Char))
  | 'q' :: c :: rest =>
    if '1' ≤ c && c ≤ '4' then some (digitVal c, grabYearGroup rest)
    else scanQuarterL (c :: rest)
  | _ :: rest => scanQuarterL rest
  | [] => none

/-- The year group that may follow the leftmost occurrence of a month
name (the source searches a pattern built from the month name followed
by the optional year group and reads its capture). -/
def yearNearMonth (titleLower : List Char) (m : String) : Option (List Char) :=
  match indexOfL m.data titleLower with
  | some i => grabYearGroup (titleLower.drop (i + m.data.length))
  | none => none

/-- Scanner for a word-bounded four-digit year `20xx`; `third` constrains
the third digit (any digit for the title parser's pattern, only 2 or 3
for the industry extractor's pattern).  Returns the leftmost match whose
neighbours are non-word characters or the ends of the string.
The `prev` argument carries the character before the current position. -/
def scanYearB (third : Char → Bool) : Option Char → List Char → Option ℕ
  | prev, '2' :: '0' :: c :: d :: rest =>
    if third c && isDigitCh d &&
       (match prev with | none => true | some p => !isWordCh p) &&
       (match rest with | [] => true | e :: _ => !isWordCh e) then
      some (digitsToNat ['2', '0', c, d])
    else scanYearB third (some '2') ('0' :: c :: d :: rest)
  | _, [] => none
  | prev, c :: rest => scanYearB third (some c) rest

/-- Keywords that make a year-only title a yearly aggregate. -/
def fullYearKeywords : List String := ["full year", "annual", "yearly", "fy "]

/-- `TitleParser._extract_period`: (year, month, quarter, period type).
Rule order as in the source: quarter pattern first, then month name
(with a year group searched next to the month), then a word-bounded
`20xx` year alone, then the publish date.  `now` models
`datetime.now()`, used only when `published_date` is absent. -/
def tpExtractPeriod (now : Date) (titleLower : String) (pd : Option Date) :
    Option ℕ × Option ℕ × Option ℕ × Option String :=
  let currentYear := match pd with | some d => d.year | none => now.year
  match scanQuarterL titleLower.data with
  | some (q, yg) =>
    (some (match yg with | some ds => yearFromGroup ds | none => currentYear),
     none, some q, some "QUARTERLY")
  | none =>
    match monthNameMap.find? (fun kv => containsSub kv.1 titleLower) with
    | some (mname, mnum) =>
      let year := match yearNearMonth titleLower.data mname with
        | some ds => yearFromGroup ds
        | none => currentYear
      (some year, some mnum, none, some "MONTHLY")
    | none =>
      match scanYearB isDigitCh none titleLower.data with
      | some y =>
        if fullYearKeywords.any (fun kw => containsSub kw titleLower) then
          (some y, none, none, some "YEARLY")
        else
          match pd with
          | some d => (some y, some d.month, none, some "MONTHLY")
          | none => (some y, none, none, some "YEARLY")
      | none =>
        match pd with
        | some d => (some d.year, some d.month, none, some "MONTHLY")
        | none => (none, none, none, none)

/-- `TitleParser._extract_value`: tokenise, drop tokens under 100
(the percentage-context test of the source is subsumed by the `>= 100`
check that follows it, and is kept here for fidelity), keep values of at
least 100, take the maximum. -/
def tpExtractValue (title : String) : Option Dec :=
  let numbers := findNumberTokens title.data
  if numbers.isEmpty then none
  else
    let hasPctCtx := ["%", "percent", "yoy", "mom"].any
      (fun kw => containsSub kw (lowerStr title))
    let values := numbers.filterMap (fun tok =>
      match parseNumToken tok with
      | some v =>
        if Dec.ltB v (Dec.ofNat 100) && hasPctCtx then none
        else if Dec.leB (Dec.ofNat 100) v then some v else none
      | none => none)
    maxDecList values

/-- The number-then-tail step shared by the change-percentage patterns:
after a matched head, skip spaces, read a greedy decimal number
(at least one digit), skip spaces, one optional percent sign, skip
spaces, and require one of the tail alternatives to start here. -/
def tryNumTail (tails : List String) (l : List Char) : Option Dec :=
  let l1 := l.dropWhile isSpaceCh
  let ds := l1.takeWhile isDigitCh
  if ds.isEmpty then none
  else
    let r1 := l1.dropWhile isDigitCh
    let fr : List Char × List Char :=
      match r1 with
      | '.' :: rr =>
        let f := rr.takeWhile isDigitCh
        if f.isEmpty then ([], r1) else (f, rr.dropWhile isDigitCh)
      | _ => ([], r1)
    let r3 := fr.2.dropWhile isSpaceCh
    let r4 := if r3.head? == some '%' then r3.tail else r3
    let r5 := r4.dropWhile isSpaceCh
    if tails.any (fun t => startsWithL t.data r5) then some (decimalOfDigits ds fr.1)
    else none

/-- Leftmost match of `(?:head1|head2|...)` followed by the
number-then-tail step; at each position the heads are tried in
alternation order, as the regex engine does. -/
def scanHeadNumTailGo (heads tails : List String) : List Char → Option Dec
  | [] => none
  | c :: rest =>
    match heads.findSome? (fun h =>
      if startsWithL h.data (c :: rest) then
        tryNumTail tails ((c :: rest).drop h.data.length)
      else none) with
    | some v => some v
    | none => scanHeadNumTailGo heads tails rest

/-- Heads of the downward change patterns of `_extract_yoy` and
`_extract_mom`. -/
def downHeads : List String := ["down", "decrease", "decline", "drop", "fall", "fell"]

/-- Heads of the upward change patterns. -/
def upHeads : List String := ["up", "increase", "rise", "rose", "grew", "grow"]

/-- Tails of the year-over-year patterns. -/
def yoyTails : List String := ["year-on-year", "yoy", "y-o-y"]

/-- Tails of the month-over-month patterns. -/
def momTails : List String := ["month-on-month", "mom", "m-o-m"]

/-- `TitleParser._extract_yoy`: the four patterns in source order
(down-heads, up-heads, minus sign, plus sign); the first and third are
negated. -/
def tpExtractYoy (title : String) : Option Dec :=
  let l := (lowerStr title).data
  match scanHeadNumTailGo downHeads yoyTails l with
  | some v => some v.negD
  | none =>
    match scanHeadNumTailGo upHeads yoyTails l with
    | some v => some v
    | none =>
      match scanHeadNumTailGo ["-"] yoyTails l with
      | some v => some v.negD
      | none => scanHeadNumTailGo ["+"] yoyTails l

/-- `TitleParser._extract_mom`: as `_extract_yoy` with the
month-over-month tails. -/
def tpExtractMom (title : String) : Option Dec :=
  let l := (lowerStr title).data
  match scanHeadNumTailGo downHeads momTails l with
  | some v => some v.negD
  | none =>
    match scanHeadNumTailGo upHeads momTails l with
    | some v => some v
    | none =>
      match scanHeadNumTailGo ["-"] momTails l with
      | some v => some v.negD
      | none => scanHeadNumTailGo ["+"] momTails l

/-- `ParsedMetric`, restricted to the fields consumed by the embedded
callers (`IndustryDataExtractor` reads `year`, `month`, `yoy_change`
and `mom_change`; the remaining dimension fields `vehicle_model`,
`region`, `category` are extracted by the source but never consumed by
any embedded caller and are not modelled). -/
structure ParsedMetric where
  brand : String
  metric_type : String
  value : Dec
  year : ℕ
  month : Option ℕ
  quarter : Option ℕ
  period_type : Option String
  yoy_change : Option Dec
  mom_change : Option Dec
  unit : String
deriving DecidableEq

/-- `TitleParser.parse`: brand, metric type, value and period must all
resolve, else `None`.  `now` models `datetime.now()` (consumed only
when `published_date` is absent). -/
def tpParse (now : Date) (title : String) (pd : Option Date) : Option ParsedMetric :=
  if title == "" then none
  else
    let title_lower := lowerStr title
    match tpExtractBrand title_lower with
    | none => none
    | some brand =>
      match tpExtractMetricType title_lower with
      | none => none
      | some metricType =>
        match tpExtractValue title with
        | none => none
        | some value =>
          match tpExtractPeriod now title_lower pd with
          | (some year, month, quarter, periodType) =>
            some { brand := brand, metric_type := metricType, value := value,
                   year := year, month := month, quarter := quarter,
                   period_type := periodType,
                   yoy_change := tpExtractYoy title, mom_change := tpExtractMom title,
                   unit := if metricType == "BATTERY_INSTALL" then "GWh" else "vehicles" }
          | (none, _, _, _) => none

/-! ## Industry extractor (`src/scraper/extractors/industry_extractor.py`) -/

/-- Values of the flat record dictionaries the extractor builds:
Python ints, floats (exact decimals), strings, booleans and `None`. -/
inductive PyVal where
  | int (n : ℤ)
  | num (d : Dec)
  | str (s : String)
  | bool (b : Bool)
  | none
deriving DecidableEq

/-- Dictionary lookup, `d.get(k)` (keys are unique in every dictionary
the embedded code builds). -/
def lookupPV (d : List (String × PyVal)) (k : String) : Option PyVal :=
  match d with
  | [] => none
  | kv :: rest => if kv.1 == k then some kv.2 else lookupPV rest k

/-- Dictionary assignment `d[k] = v`: overwrite in place if the key
exists, else append (Python dict semantics). -/
def setKey (d : List (String × PyVal)) (k : String) (v : PyVal) : List (String × PyVal) :=
  if d.any (fun kv => kv.1 == k) then
    d.map (fun kv => if kv.1 == k then (k, v) else kv)
  else d ++ [(k, v)]

/-- Conditional assignment `if x is not None: d[k] = x` for float fields. -/
def addIfSome (d : List (String × PyVal)) (k : String) (v : Option Dec) :
    List (String × PyVal) :=
  match v with
  | some x => d ++ [(k, PyVal.num x)]
  | none => d

/-- Python truthiness of a dictionary access result (`d.get(k)` is falsy
when the key is absent, `None`, `False`, zero or the empty string). -/
def pyTruthy : Option PyVal → Bool
  | some (.bool b) => b
  | some (.int n) => n != 0
  | some (.num d) => d.mant != 0
  | some (.str s) => s != ""
  | some .none => false
  | Option.none => false

/-- Two-digit, zero-padded rendering, Python format `02d` (values the
code feeds it never exceed two digits). -/
def fmt2 (n : ℕ) : String := if n < 10 then "0" ++ toString n else toString n

/-- `datetime.isoformat()` for a date with zero time-of-day, as the
checkpoint and record timestamps are produced. -/
def isoDate (d : Date) : String :=
  toString d.year ++ "-" ++ fmt2 d.month ++ "-" ++ fmt2 d.day ++ "T00:00:00"

/-- `IndustryDataExtractor._extract_time_period`: first the
`TitleParser`, then the manual fallback (month-name scan over the same
month dictionary, word-bounded year `20[2-3]x` on the raw title, fiscal
rollover only when the month is present and the year absent). -/
def ieExtractTimePeriod (now : Date) (title : String) (pd : Option Date) :
    Option ℕ × Option ℕ :=
  match tpParse now title pd with
  | some p => (some p.year, p.month)
  | none =>
    let title_lower := lowerStr title
    let currentYear := match pd with | some d => d.year | none => now.year
    let month := (monthNameMap.find? (fun kv => containsSub kv.1 title_lower)).map (·.2)
    let year := scanYearB (fun c => c == '2' || c == '3') none title.data
    match month, year with
    | some m, Option.none =>
      let refMonth := match pd with | some d => d.month | none => now.month
      (some (if m > refMonth then currentYear - 1 else currentYear), some m)
    | Option.none, some y =>
      (match pd with
       | some d => (some y, some d.month)
       | none => (some y, none))
    | m, y => (y, m)

/-- `IndustryDataExtractor._extract_value`: optional GWh pattern first
(when `prefer_gwh`), then the `million` pattern (number times one
million), then the maximum token value of at least 100 that is not in
the year range 2000-2100.  The GWh and million patterns are compiled
with IGNORECASE and are scanned here on the lower-cased title, which is
equivalent (digits are unchanged by lowering). -/
def ieExtractValue (title : String) (preferGwh : Bool) : Option Dec :=
  let gwhHit : Option Dec :=
    if preferGwh then scanNumBeforeLit "gwh" (lowerStr title).data else none
  match gwhHit with
  | some v => some v
  | none =>
    match scanNumBeforeLit "million" (lowerStr title).data with
    | some n => some (n.mulNat 1000000)
    | none =>
      let values := (findNumberTokens title.data).filterMap (fun tok =>
        match parseNumToken tok with
        | some v =>
          if Dec.leB (Dec.ofNat 100) v &&
             !(Dec.leB (Dec.ofNat 2000) v && Dec.leB v (Dec.ofNat 2100)) then some v
          else none
        | none => none)
      maxDecList values

/-- `IndustryDataExtractor._extract_percentage`: the number captured by
the percent pattern (digits, optional fraction, spaces, percent sign),
searched on the raw title. -/
def ieExtractPercentage (title : String) : Option Dec :=
  scanNumBeforeLit "%" title.data

/-- The dealer-inventory factor pattern: one digit, a dot, then digits,
leftmost match on the raw title. -/
def scanFactor : List Char → Option Dec
  | d0 :: '.' :: e :: rest =>
    if isDigitCh d0 && isDigitCh e then
      some (decimalOfDigits [d0] (e :: rest.takeWhile isDigitCh))
    else scanFactor ('.' :: e :: rest)
  | _ :: rest => scanFactor rest
  | [] => none

/-- `IndustryDataExtractor._extract_yoy_mom`: runs the title parser
without a publish date and reads the change fields. -/
def ieExtractYoyMom (now : Date) (title : String) : Option Dec × Option Dec :=
  match tpParse now title none with
  | some p => (p.yoy_change, p.mom_change)
  | none => (none, none)

/-- `IndustryDataExtractor.PLANTS` in dict insertion order:
keyword to (plant, brand). -/
def iePLANTS : List (String × String × String) :=
  [("shanghai", "Tesla Shanghai", "Tesla"),
   ("giga shanghai", "Tesla Shanghai", "Tesla"),
   ("tesla shanghai", "Tesla Shanghai", "Tesla"),
   ("fremont", "Tesla Fremont", "Tesla"),
   ("berlin", "Tesla Berlin", "Tesla"),
   ("texas", "Tesla Texas", "Tesla"),
   ("austin", "Tesla Texas", "Tesla"),
   ("byd shenzhen", "BYD Shenzhen", "BYD"),
   ("byd changsha", "BYD Changsha", "BYD")]

/-- `IndustryDataExtractor.BATTERY_MAKERS` in dict insertion order. -/
def ieBATTERY_MAKERS : List (String × String) :=
  [("catl", "CATL"), ("byd", "BYD"), ("lg", "LG Energy Solution"),
   ("lg energy", "LG Energy Solution"), ("sk", "SK On"), ("sk on", "SK On"),
   ("panasonic", "Panasonic"), ("calb", "CALB"), ("gotion", "Gotion High-Tech"),
   ("eve", "EVE Energy"), ("sunwoda", "Sunwoda"), ("svolt", "SVOLT"),
   ("samsung", "Samsung SDI"), ("farasis", "Farasis Energy")]

/-- Per-table extraction routine: (title, summary, classification,
published date) to an optional record. -/
abbrev IERoutine :=
  String → String → ClassificationResult → Option Date → Option (List (String × PyVal))

/-- `_extract_passenger_inventory`.  The `== 0` disjuncts model Python's
truthiness test `if not year or not month ...` (zero is falsy). -/
def ieExtractPassengerInventory (now : Date) : IERoutine := fun title _summary _cls pd =>
  let ym := ieExtractTimePeriod now title pd
  let value := ieExtractValue title false
  match ym.1, ym.2, value with
  | some yy, some mm, some v =>
    if yy == 0 || mm == 0 then none
    else some [("year", .int (yy : ℤ)), ("month", .int (mm : ℤ)),
               ("value", .num v), ("unit", .str "vehicles")]
  | _, _, _ => none

/-- `_extract_battery_installation`. -/
def ieExtractBatteryInstallation (now : Date) : IERoutine := fun title _summary _cls pd =>
  let ym := ieExtractTimePeriod now title pd
  let value := ieExtractValue title true
  match ym.1, ym.2, value with
  | some yy, some mm, some v =>
    if yy == 0 || mm == 0 then none
    else some [("year", .int (yy : ℤ)), ("month", .int (mm : ℤ)),
               ("installation", .num v), ("unit", .str "GWh")]
  | _, _, _ => none

/-- `_extract_caam_nev_sales`. -/
def ieExtractCaamNevSales (now : Date) : IERoutine := fun title _summary _cls pd =>
  let ym := ieExtractTimePeriod now title pd
  let value := ieExtractValue title false
  let changes := ieExtractYoyMom now title
  match ym.1, ym.2, value with
  | some yy, some mm, some v =>
    if yy == 0 || mm == 0 then none
    else
      let base := [("year", PyVal.int (yy : ℤ)), ("month", PyVal.int (mm : ℤ)),
                   ("value", PyVal.num v), ("unit", PyVal.str "vehicles")]
      some (addIfSome (addIfSome base "yoyChange" changes.1) "momChange" changes.2)
  | _, _, _ => none

/-- `_extract_dealer_inventory`. -/
def ieExtractDealerInventory (now : Date) : IERoutine := fun title _summary _cls pd =>
  let ym := ieExtractTimePeriod now title pd
  let value := scanFactor title.data
  match ym.1, ym.2, value with
  | some yy, some mm, some v =>
    if yy == 0 || mm == 0 then none
    else some [("year", .int (yy : ℤ)), ("month", .int (mm : ℤ)),
               ("value", .num v), ("unit", .str "factor")]
  | _, _, _ => none

/-- `_extract_cpca_nev_retail`. -/
def ieExtractCpcaNevRetail (now : Date) : IERoutine := fun title _summary _cls pd =>
  let ym := ieExtractTimePeriod now title pd
  let value := ieExtractValue title false
  let changes := ieExtractYoyMom now title
  match ym.1, ym.2, value with
  | some yy, some mm, some v =>
    if yy == 0 || mm == 0 then none
    else
      let base := [("year", PyVal.int (yy : ℤ)), ("month", PyVal.int (mm : ℤ)),
                   ("value", PyVal.num v), ("unit", PyVal.str "vehicles")]
      some (addIfSome (addIfSome base "yoyChange" changes.1) "momChange" changes.2)
  | _, _, _ => none

/-- `_extract_cpca_nev_production`. -/
def ieExtractCpcaNevProduction (now : Date) : IERoutine := fun title _summary _cls pd =>
  let ym := ieExtractTimePeriod now title pd
  let value := ieExtractValue title false
  let changes := ieExtractYoyMom now title
  match ym.1, ym.2, value with
  | some yy, some mm, some v =>
    if yy == 0 || mm == 0 then none
    else
      let base := [("year", PyVal.int (yy : ℤ)), ("month", PyVal.int (mm : ℤ)),
                   ("value", PyVal.num v), ("unit", PyVal.str "vehicles")]
      some (addIfSome (addIfSome base "yoyChange" changes.1) "momChange" changes.2)
  | _, _, _ => none

/-- `_extract_via_index`. -/
def ieExtractViaIndex (now : Date) : IERoutine := fun title _summary _cls pd =>
  let ym := ieExtractTimePeriod now title pd
  let value := ieExtractPercentage title
  match ym.1, ym.2, value with
  | some yy, some mm, some v =>
    if yy == 0 || mm == 0 then none
    else some [("year", .int (yy : ℤ)), ("month", .int (mm : ℤ)),
               ("value", .num v), ("unit", .str "percent")]
  | _, _, _ => none

/-- The maker-normalisation loop of `_extract_battery_maker_monthly`:
first maker entry whose keyword equals or is contained in the
lower-cased dimension value; the value is kept unchanged when no entry
matches. -/
def ieNormalizeMaker (mk : String) : String :=
  match ieBATTERY_MAKERS.find? (fun kv =>
    kv.1 == lowerStr mk || containsSub kv.1 (lowerStr mk)) with
  | some kv => kv.2
  | none => mk

/-- `_extract_battery_maker_monthly`.  The maker comes from the
classifier dimensions (normalised) or, when that is absent or empty
(falsy), from a keyword scan of the title. -/
def ieExtractBatteryMakerMonthly (now : Date) : IERoutine := fun title _summary cls pd =>
  let ym := ieExtractTimePeriod now title pd
  let value := ieExtractValue title true
  let changes := ieExtractYoyMom now title
  let scanned := (ieBATTERY_MAKERS.find?
    (fun kv => containsSub kv.1 (lowerStr title))).map (·.2)
  let maker : Option String :=
    match (cls.dimensions.find? (fun kv => kv.1 == "maker")).map (·.2) with
    | some mk =>
      if mk == "" then (match scanned with | some s => some s | none => some mk)
      else some (ieNormalizeMaker mk)
    | none => scanned
  match ym.1, ym.2, value, maker with
  | some yy, some mm, some v, some mk =>
    if yy == 0 || mm == 0 || mk == "" then none
    else
      let base := [("maker", PyVal.str mk), ("year", PyVal.int (yy : ℤ)),
                   ("month", PyVal.int (mm : ℤ)), ("installation", PyVal.num v),
                   ("unit", PyVal.str "GWh")]
      some (addIfSome (addIfSome base "yoyChange" changes.1) "momChange" changes.2)
  | _, _, _, _ => none

/-- `_extract_plant_exports`. -/
def ieExtractPlantExports (now : Date) : IERoutine := fun title _summary _cls pd =>
  let ym := ieExtractTimePeriod now title pd
  let value := ieExtractValue title false
  let changes := ieExtractYoyMom now title
  let pb := (iePLANTS.find? (fun kv => containsSub kv.1 (lowerStr title))).map (·.2)
  match ym.1, ym.2, value, pb with
  | some yy, some mm, some v, some plantBrand =>
    if yy == 0 || mm == 0 || plantBrand.1 == "" || plantBrand.2 == "" then none
    else
      let base := [("plant", PyVal.str plantBrand.1), ("brand", PyVal.str plantBrand.2),
                   ("year", PyVal.int (yy : ℤ)), ("month", PyVal.int (mm : ℤ)),
                   ("value", PyVal.num v), ("unit", PyVal.str "vehicles")]
      some (addIfSome (addIfSome base "yoyChange" changes.1) "momChange" changes.2)
  | _, _, _, _ => none

/-! The date-range pattern of `_extract_nev_sales_summary`: an optional
captured word then spaces, a one-or-two digit day, a dash or slash, a
one-or-two digit day.  The scanners below reproduce the backtracking
order of the regex engine: at each start position the optional group is
tried first with the greedy word run, shrinking it; then the pattern
without the group; the first start position that matches wins. -/

/-- The day-range tail with a one-digit first day. -/
def drOneNum (l : List Char) : Option (ℕ × ℕ) :=
  match l with
  | a :: s :: c :: rest =>
    if isDigitCh a && (s == '-' || s == '/') && isDigitCh c then
      some (digitVal a,
        match rest with
        | d0 :: _ => if isDigitCh d0 then 10 * digitVal c + digitVal d0 else digitVal c
        | [] => digitVal c)
    else none
  | _ => none

/-- The day-range tail: two-digit first day preferred (greedy), falling
back to one digit. -/
def drTwoNums (l : List Char) : Option (ℕ × ℕ) :=
  match l with
  | a :: b :: s :: rest =>
    if isDigitCh a && isDigitCh b && (s == '-' || s == '/') then
      match rest with
      | c :: rest2 =>
        if isDigitCh c then
          some (10 * digitVal a + digitVal b,
            match rest2 with
            | d0 :: _ => if isDigitCh d0 then 10 * digitVal c + digitVal d0 else digitVal c
            | [] => digitVal c)
        else drOneNum (a :: b :: s :: rest)
      | [] => drOneNum (a :: b :: s :: rest)
    else drOneNum (a :: b :: s :: rest)
  | l' => drOneNum l'

/-- Word-group prefixes of length `k`, `k-1`, ..., 1, each followed by
skipped spaces and the day-range tail. -/
def drTryWordGroup (l : List Char) : ℕ → Option (List Char × ℕ × ℕ)
  | 0 => none
  | k + 1 =>
    let after := (l.drop (k + 1)).dropWhile isSpaceCh
    match drTwoNums after with
    | some xy => some (l.take (k + 1), xy.1, xy.2)
    | none => drTryWordGroup l k

/-- The full pattern at one start position. -/
def drTryAt (l : List Char) : Option (Option (List Char) × ℕ × ℕ) :=
  match drTryWordGroup l (l.takeWhile isWordCh).length with
  | some wxy => some (some wxy.1, wxy.2.1, wxy.2.2)
  | none =>
    match drTwoNums l with
    | some xy => some (none, xy.1, xy.2)
    | none => none

/-- Leftmost match of the date-range pattern. -/
def drSearch : List Char → Option (Option (List Char) × ℕ × ℕ)
  | [] => none
  | c :: rest =>
    match drTryAt (c :: rest) with
    | some r => some r
    | none => drSearch rest

/-- `_extract_nev_sales_summary`. -/
def ieExtractNevSalesSummary (now : Date) : IERoutine := fun title _summary _cls pd =>
  let ym := ieExtractTimePeriod now title pd
  let value := ieExtractValue title false
  let changes := ieExtractYoyMom now title
  match drSearch title.data with
  | none => none
  | some (mstr, startDay, endDay) =>
    let year := match ym.1 with
      | some y => y
      | none => match pd with | some d => d.year | none => now.year
    let m1 : Option ℕ := match mstr with
      | some ms =>
        (match monthNameMap.find? (fun kv => kv.1 == String.mk (ms.map lowerChar)) with
         | some kv => some kv.2
         | none => ym.2)
      | none => ym.2
    let month := match m1 with
      | some m => m
      | none => match pd with | some d => d.month | none => now.month
    let startDate := fmt2 month ++ "-" ++ fmt2 startDay
    let endDate := fmt2 month ++ "-" ++ fmt2 endDay
    match value with
    | none => none
    | some v =>
      let base := [("dataSource", PyVal.str "CPCA"), ("year", PyVal.int (year : ℤ)),
                   ("startDate", PyVal.str startDate), ("endDate", PyVal.str endDate),
                   ("retailSales", PyVal.num v), ("unit", PyVal.str "vehicles")]
      some (addIfSome (addIfSome base "retailYoy" changes.1) "retailMom" changes.2)

/-- `_extract_automaker_rankings`: a stub carrying the resolved period,
tagged as requiring OCR. -/
def ieExtractAutomakerRankings (now : Date) : IERoutine := fun title _summary _cls pd =>
  let ym := ieExtractTimePeriod now title pd
  match ym.1, ym.2 with
  | some yy, some mm =>
    if yy == 0 || mm == 0 then none
    else some [("_needs_ocr", PyVal.bool true), ("_ocr_type", .str "rankings"),
               ("year", .int (yy : ℤ)), ("month", .int (mm : ℤ)),
               ("dataSource", .str "CPCA")]
  | _, _ => none

/-- `_extract_battery_maker_rankings`: a stub carrying the resolved
period (month may be `None`), tagged as requiring OCR. -/
def ieExtractBatteryMakerRankings (now : Date) : IERoutine := fun title _summary cls pd =>
  let ym := ieExtractTimePeriod now title pd
  let scope := match (cls.dimensions.find? (fun kv => kv.1 == "scope")).map (·.2) with
    | some s => s
    | none => "CHINA"
  match ym.1 with
  | some yy =>
    if yy == 0 then none
    else some [("_needs_ocr", PyVal.bool true), ("_ocr_type", .str "rankings"),
               ("year", .int (yy : ℤ)),
               ("month", match ym.2 with | some mm => PyVal.int (mm : ℤ) | none => PyVal.none),
               ("dataSource", .str (if scope == "CHINA" then "CABIA" else "SNE")),
               ("scope", .str scope)]
  | none => none

/-- The `extractors` dispatch dictionary of `IndustryDataExtractor.extract`. -/
def ieExtractors (now : Date) : List (String × IERoutine) :=
  [("ChinaPassengerInventory", ieExtractPassengerInventory now),
   ("ChinaBatteryInstallation", ieExtractBatteryInstallation now),
   ("CaamNevSales", ieExtractCaamNevSales now),
   ("ChinaDealerInventoryFactor", ieExtractDealerInventory now),
   ("CpcaNevRetail", ieExtractCpcaNevRetail now),
   ("CpcaNevProduction", ieExtractCpcaNevProduction now),
   ("ChinaViaIndex", ieExtractViaIndex now),
   ("BatteryMakerMonthly", ieExtractBatteryMakerMonthly now),
   ("PlantExports", ieExtractPlantExports now),
   ("NevSalesSummary", ieExtractNevSalesSummary now),
   ("AutomakerRankings", ieExtractAutomakerRankings now),
   ("BatteryMakerRankings", ieExtractBatteryMakerRankings now)]

structure ExtractionResult where
  success : Bool
  table_name : String
  data : List (String × PyVal)
  error : Option String
deriving DecidableEq

/-- The fixed failure message of `IndustryDataExtractor.extract`. -/
def extractErrMsg : String := "Could not extract required fields from title"

/-- The "Add common fields" block of `IndustryDataExtractor.extract`:
source URL and title always, publish timestamp and image URL when
present. -/
def addCommonFields (data0 : List (String × PyVal)) (sourceUrl sourceTitle : String)
    (imageUrl : Option String) (pd : Option Date) : List (String × PyVal) :=
  let d1 := setKey data0 "sourceUrl" (.str sourceUrl)
  let d2 := setKey d1 "sourceTitle" (.str sourceTitle)
  let d3 := match pd with
    | some d => setKey d2 "publishedAt" (.str (isoDate d))
    | none => d2
  match imageUrl with
  | some u => setKey d3 "imageUrl" (.str u)
  | none => d3

/-- `IndustryDataExtractor.extract`: `None` when the classification has
no target table or the table has no routine; a failure result when the
routine resolves no record; otherwise the record with the common fields
appended.  The routines of this embedding are total functions, so the
source's catch-all `except` branch (which converts a raised exception
into a failure result) has no cases here; no call of this function can
raise. -/
def ieExtract (now : Date) (title summary : String) (cls : ClassificationResult)
    (sourceUrl sourceTitle : String) (imageUrl : Option String) (pd : Option Date) :
    Option ExtractionResult :=
  match cls.target_table with
  | none => none
  | some t =>
    match (ieExtractors now).lookup t with
    | none => none
    | some routine =>
      match routine title summary cls pd with
      | none => some { success := false, table_name := t, data := [],
                       error := some extractErrMsg }
      | some data0 =>
        some { success := true, table_name := t,
               data := addCommonFields data0 sourceUrl sourceTitle imageUrl pd,
               error := none }

/-- Keys of `EVPlatformAPI.TABLE_TO_ENDPOINT` (`api_client.py`). -/
def TABLE_TO_ENDPOINT_KEYS : List String :=
  ["ChinaPassengerInventory", "ChinaBatteryInstallation", "CaamNevSales",
   "ChinaDealerInventoryFactor", "CpcaNevRetail", "CpcaNevProduction",
   "ChinaViaIndex", "BatteryMakerMonthly", "PlantExports", "NevSalesSummary",
   "AutomakerRankings", "BatteryMakerRankings", "NioPowerSnapshot",
   "EVMetric", "VehicleSpec"]

/-- `EVPlatformAPI.is_industry_table`: endpoint keys minus the two
legacy tables. -/
def isIndustryTable (t : String) : Bool :=
  TABLE_TO_ENDPOINT_KEYS.contains t && !(t == "EVMetric" || t == "VehicleSpec")

/-- The guard chain of `process_industry_data`
(`backfill_cnevdata.py`): true exactly when control reaches the
submission call (`api_client.submit` / its dry-run stand-in): the
classification targets an industry table, extraction succeeds, and the
record is not tagged `_needs_ocr`. -/
def reachesIndustrySubmit (now : Date) (title summary url : String)
    (imageUrl : Option String) (pd : Option Date) : Bool :=
  let classification := classify title summary
  match classification.target_table with
  | none => false
  | some t =>
    if !isIndustryTable t then false
    else
      match ieExtract now title summary classification url title imageUrl pd with
      | none => false
      | some r =>
        if !r.success then false
        else if pyTruthy (lookupPV r.data "_needs_ocr") then false
        else true

/-! ## OCR router (`src/scraper/extractors/image_ocr.py`) -/

/-- JSON values, as returned by the vision model and normalised by the
router. -/
inductive Json where
  | null
  | bool (b : Bool)
  | num (d : Dec)
  | str (s : String)
  | arr (xs : List Json)
  | obj (kvs : List (String × Json))

/-- Dictionary access on a JSON object (`key in parsed` plus
`parsed[key]`; keys of a parsed JSON object are unique). -/
def lookupJ (kvs : List (String × Json)) (k : String) : Option Json :=
  (kvs.find? (fun kv => kv.1 == k)).map (·.2)

/-- The wrapper keys of `_unwrap_data_array`, in their fixed priority
order. -/
def ocrWrapperKeys : List String :=
  ["data", "results", "result", "rows", "entries", "rankings"]

/-- The key loop of `_unwrap_data_array`: return the value of the first
wrapper key that holds a list, else fall through. -/
def unwrapGo (parsed : List (String × Json)) : List String → List Json
  | [] => [Json.obj parsed]
  | k :: ks =>
    match lookupJ parsed k with
    | some (Json.arr l) => l
    | _ => unwrapGo parsed ks

/-- `_unwrap_data_array`: unwrap a JSON-object response into its row
list, or treat the whole object as a single row. -/
def unwrapDataArray (parsed : List (String × Json)) : List Json :=
  unwrapGo parsed ocrWrapperKeys

/-- `GPT4O_PRICING`: dollars per million tokens, keyed like the source
dict (`input` 2.50, `output` 10.00). -/
def GPT4O_PRICING : List (String × Dec) := [("input", ⟨250, 2⟩), ("output", ⟨1000, 2⟩)]

/-- Price-table access; both keys are present, so the default of this
total model is never produced (Python indexes the dict directly). -/
def priceOf (k : String) : Dec :=
  ((GPT4O_PRICING.find? (fun kv => kv.1 == k)).map (·.2)).getD ⟨0, 0⟩

/-- `calculate_ocr_cost`:
`(input_tokens * price_in + output_tokens * price_out) / 1_000_000`,
exactly. -/
def calculate_ocr_cost (inputTokens outputTokens : ℕ) : Dec :=
  (((priceOf "input").mulNat inputTokens).addD
    ((priceOf "output").mulNat outputTokens)).divPow10 6

structure OCRResult where
  success : Bool
  data : Json
  raw_response : String
  error : Option String
  confidence : Dec
  input_tokens : ℕ
  output_tokens : ℕ
  cost : Dec
  duration_ms : ℕ

/-- The response post-processing of `ImageOCR.extract_from_url_sync`
(and of its async twin): given the response body, the outcome of
`json.loads` on it (`none` models `json.JSONDecodeError`), and the token
counts and duration read off the completed call, build the `OCRResult`.
The cost is computed from the token counts before parsing and is carried
by both the success and the parse-failure results.  The source's failure
message carries the decoder's own text after the fixed prefix kept
here. -/
def processOcrResponse (content : String) (parsed : Option Json)
    (inputTokens outputTokens durationMs : ℕ) : OCRResult :=
  let cost := calculate_ocr_cost inputTokens outputTokens
  match parsed with
  | some p =>
    { success := true,
      data := (match p with | Json.obj o => Json.arr (unwrapDataArray o) | other => other),
      raw_response := content, error := none, confidence := ⟨9, 1⟩,
      input_tokens := inputTokens, output_tokens := outputTokens,
      cost := cost, duration_ms := durationMs }
  | none =>
    { success := false, data := Json.arr [], raw_response := content,
      error := some "JSON parse error", confidence := ⟨9, 1⟩,
      input_tokens := inputTokens, output_tokens := outputTokens,
      cost := cost, duration_ms := durationMs }

/-! ## Backfill orchestrator (`src/scraper/backfill_cnevdata.py`)

Only the URL-level dedup and checkpoint-resume logic is modelled — the
part claims C7 speaks about.  The model follows the sequential path
(`concurrency <= 1`) of `backfill_pages`; the parallel path filters and
records URLs identically (the filter is computed once per page, before
any processing).  Stats, delays, OCR queueing and submission do not
touch the processed-URL state and are not modelled. -/

structure BArticle where
  url : String
deriving DecidableEq

/-- The checkpoint file contents (`load_checkpoint`/`save_checkpoint`):
`last_page` and the most recent processed URLs. -/
structure Checkpoint where
  last_page : ℕ
  processed_urls : List String
deriving DecidableEq

/-- The `--resume` branch of `main`: the next run starts at
`checkpoint["last_page"] + 1` (page 1 without a checkpoint).  Nothing
else of the checkpoint is consumed: in particular `processed_urls` is
not loaded into the in-memory processed set, which `backfill_pages`
initialises empty. -/
def resumeStartPage : Option Checkpoint → ℕ
  | some cp => cp.last_page + 1
  | none => 1

/-- The per-page filter of `backfill_pages`:
`[a for a in articles if a.url not in processed_set]`. -/
def pageNew (processed : List String) (arts : List BArticle) : List BArticle :=
  arts.filter (fun a => decide (a.url ∉ processed))

/-- The page loop of `backfill_pages`, from page `p` for `k` pages:
fetch, filter against the in-memory processed set, process the
remainder, add their URLs to the set.  Returns the per-page processed
article lists and the final set. -/
def runPagesAux (fetch : ℕ → List BArticle) :
    ℕ → ℕ → List String → List (ℕ × List BArticle) × List String
  | _, 0, processed => ([], processed)
  | p, k + 1, processed =>
    let news := pageNew processed (fetch p)
    let processed' := processed ++ news.map (·.url)
    let rest := runPagesAux fetch (p + 1) k processed'
    ((p, news) :: rest.1, rest.2)

/-- `backfill_pages` over the inclusive page range, with the in-memory
processed set starting empty (`processed_set = set()`). -/
def backfillPagesModel (fetch : ℕ → List BArticle) (startPage endPage : ℕ) :
    List (ℕ × List BArticle) × List String :=
  runPagesAux fetch startPage (endPage + 1 - startPage) []

/-- URLs processed on one page of the run. -/
def pageUrls (x : ℕ × List BArticle) : List String := x.2.map (·.url)

/-! ## Claim theorems -/

/-- C9 — Cost determinism: for all non-negative integer token counts,
including zero, the OCR cost equals exactly
`(input_tokens * 2.50 + output_tokens * 10.00) / 1,000,000` (the fixed
gpt-4o price table), and the cost of zero tokens is zero. -/
theorem C9_cost_determinism :
    (∀ inputTokens outputTokens : ℕ,
      (calculate_ocr_cost inputTokens outputTokens).toQ =
        ((2.50 : ℚ) * inputTokens + (10.00 : ℚ) * outputTokens) / 1000000) ∧
    (calculate_ocr_cost 0 0).toQ = 0 := by
  have h1 : priceOf "input" = ⟨250, 2⟩ := rfl
  have h2 : priceOf "output" = ⟨1000, 2⟩ := rfl
  have key : ∀ i o : ℕ, (calculate_ocr_cost i o).toQ =
      ((2.50 : ℚ) * i + (10.00 : ℚ) * o) / 1000000 := by
    intro i o
    rw [calculate_ocr_cost, h1, h2]
    simp only [Dec.mulNat, Dec.addD, Dec.divPow10, Dec.toQ, max_self, Nat.sub_self,
      pow_zero, mul_one]
    push_cast
    ring
  refine ⟨key, ?_⟩
  rw [key 0 0]
  norm_num

/-- C8 — OCR failure behavior: for every response body whose JSON
parse fails, the router returns a failure result (no rows, not a raised
exception — the embedding is a total function) that still carries the
input/output token counts and the cost computed from them by
`calculate_ocr_cost`. -/
theorem C8_ocr_parse_failure :
    ∀ (content : String) (inputTokens outputTokens durationMs : ℕ),
      processOcrResponse content none inputTokens outputTokens durationMs =
        { success := false, data := Json.arr [], raw_response := content,
          error := some "JSON parse error", confidence := ⟨9, 1⟩,
          input_tokens := inputTokens, output_tokens := outputTokens,
          cost := calculate_ocr_cost inputTokens outputTokens,
          duration_ms := durationMs } := by
  intro content i o d
  rfl

/-- The seventeen result records `classify` can return, as functions of
the title, in branch order (the summary argument is never consulted). -/
def clsBranchList (title : String) : List ClassificationResult :=
  [{ article_type := .CHINA_VIA_INDEX, target_table := some "ChinaViaIndex",
     needs_ocr := !clsHasNumber title, dimensions := [], confidence := 0.95,
     ocr_data_type := some "chart" },
   { article_type := .CHINA_DEALER_INVENTORY_FACTOR,
     target_table := some "ChinaDealerInventoryFactor",
     needs_ocr := !clsHasNumber title, dimensions := [], confidence := 0.95,
     ocr_data_type := some "chart" },
   { article_type := .BATTERY_MAKER_RANKINGS, target_table := some "BatteryMakerRankings",
     needs_ocr := true, dimensions := [("scope", clsScope (lowerStr title))],
     confidence := 0.9, ocr_data_type := some "rankings" },
   { article_type := .AUTOMAKER_RANKINGS, target_table := some "AutomakerRankings",
     needs_ocr := true, dimensions := [], confidence := 0.9,
     ocr_data_type := some "rankings" },
   { article_type := .NEV_SALES_SUMMARY, target_table := some "NevSalesSummary",
     needs_ocr := !clsHasNumber title, dimensions := [], confidence := 0.9,
     ocr_data_type := some "trend" },
   { article_type := .PLANT_EXPORTS, target_table := some "PlantExports",
     needs_ocr := !clsHasNumber title, dimensions := [], confidence := 0.9,
     ocr_data_type := some "chart" },
   { article_type := .BATTERY_MAKER_MONTHLY, target_table := some "BatteryMakerMonthly",
     needs_ocr := !clsHasNumber title,
     dimensions := [("maker", (extractBatteryMaker (lowerStr title)).getD "")],
     confidence := 0.9, ocr_data_type := some "chart" },
   { article_type := .CHINA_BATTERY_INSTALLATION,
     target_table := some "ChinaBatteryInstallation",
     needs_ocr := !clsHasNumber title, dimensions := [], confidence := 0.9,
     ocr_data_type := some "chart" },
   { article_type := .CAAM_NEV_SALES, target_table := some "CaamNevSales",
     needs_ocr := !clsHasNumber title, dimensions := [], confidence := 0.9,
     ocr_data_type := some "chart" },
   { article_type := .CPCA_NEV_PRODUCTION, target_table := some "CpcaNevProduction",
     needs_ocr := !clsHasNumber title, dimensions := [], confidence := 0.9,
     ocr_data_type := some "chart" },
   { article_type := .CPCA_NEV_RETAIL, target_table := some "CpcaNevRetail",
     needs_ocr := !clsHasNumber title, dimensions := [], confidence := 0.9,
     ocr_data_type := some "chart" },
   { article_type := .CHINA_PASSENGER_INVENTORY,
     target_table := some "ChinaPassengerInventory",
     needs_ocr := !clsHasNumber title, dimensions := [], confidence := 0.9,
     ocr_data_type := some "chart" },
   { article_type := .VEHICLE_SPEC, target_table := some "VehicleSpec",
     needs_ocr := true, dimensions := [], confidence := 0.95,
     ocr_data_type := some "specs" },
   { article_type := .MODEL_BREAKDOWN, target_table := some "EVMetric",
     needs_ocr := !clsHasNumber title, dimensions := [("vehicleModel", "parse_from_content")],
     confidence := 0.9, ocr_data_type := none },
   { article_type := .REGIONAL_DATA, target_table := some "EVMetric",
     needs_ocr := !clsHasNumber title,
     dimensions := [("region", (extractRegion (lowerStr title)).getD "")],
     confidence := 0.9, ocr_data_type := none },
   { article_type := .BRAND_METRIC, target_table := some "EVMetric",
     needs_ocr := !clsHasNumber title, dimensions := [], confidence := 0.95,
     ocr_data_type := none },
   { article_type := .SKIP, target_table := none, needs_ocr := false,
     dimensions := [], confidence := 0.5, ocr_data_type := none }]
lemma classify_mem_branches : ∀ title summary : String, classify title summary ∈ clsBranchList title := by
  intro title summary
  unfold classify clsBranchList
  dsimp only
  by_cases h1 : matchAnyRE viaIndexPatterns (lowerStr title) = true
  · rw [if_pos h1]
    exact List.mem_cons_self _ _
  · rw [if_neg h1]
    by_cases h2 : matchAnyRE dealerInventoryPatterns (lowerStr title) = true
    · rw [if_pos h2]
      exact List.mem_cons_of_mem _ (List.mem_cons_self _ _)
    · rw [if_neg h2]
      by_cases h3 : matchAnyRE batteryMakerRankingsPatterns (lowerStr title) = true
      · rw [if_pos h3]
        exact List.mem_cons_of_mem _ (List.mem_cons_of_mem _ (List.mem_cons_self _ _))
      · rw [if_neg h3]
        by_cases h4 : matchAnyRE automakerRankingsPatterns (lowerStr title) = true
        · rw [if_pos h4]
          exact List.mem_cons_of_mem _ (List.mem_cons_of_mem _ (List.mem_cons_of_mem _ (List.mem_cons_self _ _)))
        · rw [if_neg h4]
          by_cases h5 : matchAnyRE nevSalesSummaryPatterns (lowerStr title) = true
          · rw [if_pos h5]
            exact List.mem_cons_of_mem _ (List.mem_cons_of_mem _ (List.mem_cons_of_mem _ (List.mem_cons_of_mem _ (List.mem_cons_self _ _))))
          · rw [if_neg h5]
            by_cases h6 : matchAnyRE plantExportsPatterns (lowerStr title) = true
            · rw [if_pos h6]
              exact List.mem_cons_of_mem _ (List.mem_cons_of_mem _ (List.mem_cons_of_mem _ (List.mem_cons_of_mem _ (List.mem_cons_of_mem _ (List.mem_cons_self _ _)))))
            · rw [if_neg h6]
              by_cases h7 : ((extractBatteryMaker (lowerStr title)).isSome && batteryMakerMonthlyMatch (lowerStr title)) = true
              · rw [if_pos h7]
                exact List.mem_cons_of_mem _ (List.mem_cons_of_mem _ (List.mem_cons_of_mem _ (List.mem_cons_of_mem _ (List.mem_cons_of_mem _ (List.mem_cons_of_mem _ (List.mem_cons_self _ _))))))
              · rw [if_neg h7]
                by_cases h8 : matchAnyRE chinaBatteryPatterns (lowerStr title) = true
                · rw [if_pos h8]
                  exact List.mem_cons_of_mem _ (List.mem_cons_of_mem _ (List.mem_cons_of_mem _ (List.mem_cons_of_mem _ (List.mem_cons_of_mem _ (List.mem_cons_of_mem _ (List.mem_cons_of_mem _ (List.mem_cons_self _ _)))))))
                · rw [if_neg h8]
                  by_cases h9 : matchAnyRE caamPatterns (lowerStr title) = true
                  · rw [if_pos h9]
                    exact List.mem_cons_of_mem _ (List.mem_cons_of_mem _ (List.mem_cons_of_mem _ (List.mem_cons_of_mem _ (List.mem_cons_of_mem _ (List.mem_cons_of_mem _ (List.mem_cons_of_mem _ (List.mem_cons_of_mem _ (List.mem_cons_self _ _))))))))
                  · rw [if_neg h9]
                    by_cases h10 : matchAnyRE cpcaProductionPatterns (lowerStr title) = true
                    · rw [if_pos h10]
                      exact List.mem_cons_of_mem _ (List.mem_cons_of_mem _ (List.mem_cons_of_mem _ (List.mem_cons_of_mem _ (List.mem_cons_of_mem _ (List.mem_cons_of_mem _ (List.mem_cons_of_mem _ (List.mem_cons_of_mem _ (List.mem_cons_of_mem _ (List.mem_cons_self _ _)))))))))
                    · rw [if_neg h10]
                      by_cases h11 : matchAnyRE cpcaRetailPatterns (lowerStr title) = true
                      · rw [if_pos h11]
                        exact List.mem_cons_of_mem _ (List.mem_cons_of_mem _ (List.mem_cons_of_mem _ (List.mem_cons_of_mem _ (List.mem_cons_of_mem _ (List.mem_cons_of_mem _ (List.mem_cons_of_mem _ (List.mem_cons_of_mem _ (List.mem_cons_of_mem _ (List.mem_cons_of_mem _ (List.mem_cons_self _ _))))))))))
                      · rw [if_neg h11]
                        by_cases h12 : matchAnyRE passengerInventoryPatterns (lowerStr title) = true
                        · rw [if_pos h12]
                          exact List.mem_cons_of_mem _ (List.mem_cons_of_mem _ (List.mem_cons_of_mem _ (List.mem_cons_of_mem _ (List.mem_cons_of_mem _ (List.mem_cons_of_mem _ (List.mem_cons_of_mem _ (List.mem_cons_of_mem _ (List.mem_cons_of_mem _ (List.mem_cons_of_mem _ (List.mem_cons_of_mem _ (List.mem_cons_self _ _)))))))))))
                        · rw [if_neg h12]
                          by_cases h13 : (SPEC_KEYWORDS.any fun kw => containsSub kw (lowerStr title)) = true
                          · rw [if_pos h13]
                            exact List.mem_cons_of_mem _ (List.mem_cons_of_mem _ (List.mem_cons_of_mem _ (List.mem_cons_of_mem _ (List.mem_cons_of_mem _ (List.mem_cons_of_mem _ (List.mem_cons_of_mem _ (List.mem_cons_of_mem _ (List.mem_cons_of_mem _ (List.mem_cons_of_mem _ (List.mem_cons_of_mem _ (List.mem_cons_of_mem _ (List.mem_cons_self _ _))))))))))))
                          · rw [if_neg h13]
                            by_cases h14 : (BREAKDOWN_KEYWORDS.any fun kw => containsSub kw (lowerStr title)) = true
                            · rw [if_pos h14]
                              exact List.mem_cons_of_mem _ (List.mem_cons_of_mem _ (List.mem_cons_of_mem _ (List.mem_cons_of_mem _ (List.mem_cons_of_mem _ (List.mem_cons_of_mem _ (List.mem_cons_of_mem _ (List.mem_cons_of_mem _ (List.mem_cons_of_mem _ (List.mem_cons_of_mem _ (List.mem_cons_of_mem _ (List.mem_cons_of_mem _ (List.mem_cons_of_mem _ (List.mem_cons_self _ _)))))))))))))
                            · rw [if_neg h14]
                              by_cases h15 : (extractRegion (lowerStr title)).isSome = true
                              · rw [if_pos h15]
                                exact List.mem_cons_of_mem _ (List.mem_cons_of_mem _ (List.mem_cons_of_mem _ (List.mem_cons_of_mem _ (List.mem_cons_of_mem _ (List.mem_cons_of_mem _ (List.mem_cons_of_mem _ (List.mem_cons_of_mem _ (List.mem_cons_of_mem _ (List.mem_cons_of_mem _ (List.mem_cons_of_mem _ (List.mem_cons_of_mem _ (List.mem_cons_of_mem _ (List.mem_cons_of_mem _ (List.mem_cons_self _ _))))))))))))))
                              · rw [if_neg h15]
                                by_cases h16 : (salesKeywords.any fun kw => containsSub kw (lowerStr title)) = true
                                · rw [if_pos h16]
                                  exact List.mem_cons_of_mem _ (List.mem_cons_of_mem _ (List.mem_cons_of_mem _ (List.mem_cons_of_mem _ (List.mem_cons_of_mem _ (List.mem_cons_of_mem _ (List.mem_cons_of_mem _ (List.mem_cons_of_mem _ (List.mem_cons_of_mem _ (List.mem_cons_of_mem _ (List.mem_cons_of_mem _ (List.mem_cons_of_mem _ (List.mem_cons_of_mem _ (List.mem_cons_of_mem _ (List.mem_cons_of_mem _ (List.mem_cons_self _ _)))))))))))))))
                                · rw [if_neg h16]
                                  exact List.mem_cons_of_mem _ (List.mem_cons_of_mem _ (List.mem_cons_of_mem _ (List.mem_cons_of_mem _ (List.mem_cons_of_mem _ (List.mem_cons_of_mem _ (List.mem_cons_of_mem _ (List.mem_cons_of_mem _ (List.mem_cons_of_mem _ (List.mem_cons_of_mem _ (List.mem_cons_of_mem _ (List.mem_cons_of_mem _ (List.mem_cons_of_mem _ (List.mem_cons_of_mem _ (List.mem_cons_of_mem _ (List.mem_cons_of_mem _ (List.mem_cons_self _ _))))))))))))))))

/-- C10 — Classifier SKIP invariant: for every (title, summary), the
target table is `none` iff the article type is SKIP; a SKIP
classification has `needs_ocr = false`, empty dimensions and no OCR
prompt kind; every non-SKIP classification carries a table name. -/
theorem C10_skip_invariant :
    ∀ title summary : String,
      ((classify title summary).target_table = none ↔
        (classify title summary).article_type = ArticleType.SKIP) ∧
      ((classify title summary).article_type = ArticleType.SKIP →
        (classify title summary).needs_ocr = false ∧
        (classify title summary).dimensions = [] ∧
        (classify title summary).ocr_data_type = none) ∧
      ((classify title summary).article_type ≠ ArticleType.SKIP →
        ∃ tbl, (classify title summary).target_table = some tbl) := by
  intro title summary
  have h := classify_mem_branches title summary
  revert h
  generalize classify title summary = c
  intro h
  fin_cases h <;> simp

/-- Witness for C10 at concrete titles: "hello world" is a SKIP with the
stated fields; a brand-metric title has a table. -/
theorem C10_skip_invariant_witness :
    ((classify "hello world" "").needs_ocr = false ∧
     (classify "hello world" "").dimensions = [] ∧
     (classify "hello world" "").ocr_data_type = none) ∧
    (∃ tbl, (classify "Nio deliveries in Jan: 27,182" "").target_table = some tbl) :=
  ⟨(C10_skip_invariant "hello world" "").2.1 (by decide),
   (C10_skip_invariant "Nio deliveries in Jan: 27,182" "").2.2 (by decide)⟩

/-- Does the wrapper key hold a list in this object? -/
def isArrAt (o : List (String × Json)) (k : String) : Bool :=
  match lookupJ o k with
  | some (Json.arr _) => true
  | _ => false

/-- The first wrapper key, in the fixed priority order, whose value is a
list — the key the specification says the normaliser must choose. -/
def firstListKey (o : List (String × Json)) : Option String :=
  ocrWrapperKeys.find? (isArrAt o)

/-- The key loop returns the list at the first matching key of `ks`, and
falls through to the singleton wrap when no key of `ks` matches. -/
theorem unwrapGo_spec (o : List (String × Json)) (ks : List String) :
    (∀ k, ks.find? (isArrAt o) = some k →
      ∃ l, lookupJ o k = some (Json.arr l) ∧ unwrapGo o ks = l) ∧
    (ks.find? (isArrAt o) = none → unwrapGo o ks = [Json.obj o]) := by
  induction ks with
  | nil => exact ⟨fun k h => by simp [List.find?] at h, fun _ => rfl⟩
  | cons k0 ks ih =>
    by_cases h0 : isArrAt o k0 = true
    · refine ⟨fun k hk => ?_, fun hn => ?_⟩
      · rw [List.find?_cons_of_pos _ h0] at hk
        cases hk
        unfold isArrAt at h0
        revert h0
        match hl : lookupJ o k0 with
        | some (Json.arr l) =>
          intro _
          exact ⟨l, rfl, by simp [unwrapGo, hl]⟩
        | some Json.null | some (Json.bool _) | some (Json.num _) | some (Json.str _)
        | some (Json.obj _) | none => intro h0; simp at h0
      · rw [List.find?_cons_of_pos _ h0] at hn
        cases hn
    · have h0' : isArrAt o k0 = false := by simpa using h0
      refine ⟨fun k hk => ?_, fun hn => ?_⟩
      · rw [List.find?_cons_of_neg _ (by simp [h0'])] at hk
        obtain ⟨l, hl, hgo⟩ := ih.1 k hk
        refine ⟨l, hl, ?_⟩
        rw [← hgo]
        unfold isArrAt at h0'
        revert h0'
        match hlk : lookupJ o k0 with
        | some (Json.arr l') => intro h0'; simp at h0'
        | some Json.null => intro _; simp [unwrapGo, hlk]
        | some (Json.bool _) => intro _; simp [unwrapGo, hlk]
        | some (Json.num _) => intro _; simp [unwrapGo, hlk]
        | some (Json.str _) => intro _; simp [unwrapGo, hlk]
        | some (Json.obj _) => intro _; simp [unwrapGo, hlk]
        | none => intro _; simp [unwrapGo, hlk]
      · rw [List.find?_cons_of_neg _ (by simp [h0'])] at hn
        have := ih.2 hn
        rw [← this]
        unfold isArrAt at h0'
        revert h0'
        match hlk : lookupJ o k0 with
        | some (Json.arr l') => intro h0'; simp at h0'
        | some Json.null => intro _; simp [unwrapGo, hlk]
        | some (Json.bool _) => intro _; simp [unwrapGo, hlk]
        | some (Json.num _) => intro _; simp [unwrapGo, hlk]
        | some (Json.str _) => intro _; simp [unwrapGo, hlk]
        | some (Json.obj _) => intro _; simp [unwrapGo, hlk]
        | none => intro _; simp [unwrapGo, hlk]

/-- C3 — OCR response normalization: when some wrapper key of the
fixed priority order holds a list, the normaliser returns the list of
the first such key; when none does, it returns the one-element list
holding the whole object; and in particular the key "data" wins whenever
it holds a list. -/
theorem C3_unwrap_normalization :
    (∀ (o : List (String × Json)) (k : String),
      firstListKey o = some k →
      ∃ l, lookupJ o k = some (Json.arr l) ∧ unwrapDataArray o = l) ∧
    (∀ o : List (String × Json),
      firstListKey o = none → unwrapDataArray o = [Json.obj o]) ∧
    (∀ (o : List (String × Json)) (l : List Json),
      lookupJ o "data" = some (Json.arr l) → unwrapDataArray o = l) := by
  refine ⟨fun o k hk => (unwrapGo_spec o ocrWrapperKeys).1 k hk,
          fun o hn => (unwrapGo_spec o ocrWrapperKeys).2 hn,
          fun o l hl => ?_⟩
  have hfirst : firstListKey o = some "data" := by
    unfold firstListKey ocrWrapperKeys
    rw [List.find?_cons_of_pos]
    unfold isArrAt
    rw [hl]
  obtain ⟨l', hl', hun⟩ := (unwrapGo_spec o ocrWrapperKeys).1 "data" hfirst
  rw [hl] at hl'
  cases hl'
  exact hun

/-- Witness for C3: an object where "results" precedes "data" still
unwraps at "data" (priority, not object order), and an object without
any wrapper key becomes a one-element list holding itself. -/
theorem C3_unwrap_normalization_witness :
    (∃ l, lookupJ [("results", Json.arr []), ("data", Json.arr [Json.null])] "data" =
        some (Json.arr l) ∧
      unwrapDataArray [("results", Json.arr []), ("data", Json.arr [Json.null])] = l) ∧
    unwrapDataArray [("foo", Json.null)] = [Json.obj [("foo", Json.null)]] :=
  ⟨C3_unwrap_normalization.1 _ "data" (by decide),
   C3_unwrap_normalization.2.1 _ (by decide)⟩

/-- C6 — Extraction error handling: the extract entry point (a total
function in this embedding — the source guards its body with a catch-all
`except` so no exception escapes) returns `None` when the classification
has no target table or an unknown one, and a failure result with
`success = false`, empty data and a fixed non-empty human-readable
message when the per-table routine cannot resolve the required fields. -/
theorem C6_extract_error_handling :
    ∀ (now : Date) (title summary : String) (cls : ClassificationResult)
      (url st : String) (img : Option String) (pd : Option Date),
      (cls.target_table = none → ieExtract now title summary cls url st img pd = none) ∧
      (∀ t, cls.target_table = some t → (ieExtractors now).lookup t = none →
        ieExtract now title summary cls url st img pd = none) ∧
      (∀ t routine, cls.target_table = some t →
        (ieExtractors now).lookup t = some routine →
        routine title summary cls pd = none →
        ieExtract now title summary cls url st img pd =
          some { success := false, table_name := t, data := [],
                 error := some extractErrMsg } ∧
        extractErrMsg ≠ "") := by
  intro now title summary cls url st img pd
  refine ⟨fun h => ?_, fun t h hl => ?_, fun t routine h hl hr => ⟨?_, by decide⟩⟩
  · simp [ieExtract, h]
  · simp [ieExtract, h, hl]
  · simp [ieExtract, h, hl, hr]

/-- A fixed reference date standing in for the clock in the concrete
witnesses (`datetime.now()` is never consulted on these inputs other
than trivially). -/
def now0 : Date := ⟨2025, 6, 1⟩

/-- A SKIP classification record, as the classifier's final fallback
produces. -/
def skipCls : ClassificationResult :=
  { article_type := .SKIP, target_table := none, needs_ocr := false,
    dimensions := [], confidence := 0.5, ocr_data_type := none }

/-- A brand-metric classification: its target table `EVMetric` is a real
table of the platform but has no routine in the industry extractor's
dispatch dictionary. -/
def evMetricCls : ClassificationResult :=
  { article_type := .BRAND_METRIC, target_table := some "EVMetric", needs_ocr := false,
    dimensions := [], confidence := 0.95, ocr_data_type := none }

/-- An automaker-rankings classification record. -/
def amrCls : ClassificationResult :=
  { article_type := .AUTOMAKER_RANKINGS, target_table := some "AutomakerRankings",
    needs_ocr := true, dimensions := [], confidence := 0.9,
    ocr_data_type := some "rankings" }

/-- Witness for C6: no target table and the routine-less `EVMetric`
table give `None`; a rankings article whose title resolves no period
gives the failure record. -/
theorem C6_extract_error_handling_witness :
    ieExtract now0 "t" "" skipCls "u" "t" none none = none ∧
    ieExtract now0 "t" "" evMetricCls "u" "t" none none = none ∧
    ieExtract now0 "no period here" "" amrCls "u" "no period here" none none =
      some { success := false, table_name := "AutomakerRankings", data := [],
             error := some extractErrMsg } :=
  ⟨(C6_extract_error_handling now0 "t" "" skipCls "u" "t" none none).1 rfl,
   (C6_extract_error_handling now0 "t" "" evMetricCls "u" "t" none none).2.1 "EVMetric" rfl rfl,
   ((C6_extract_error_handling now0 "no period here" "" amrCls "u" "no period here" none
      none).2.2 "AutomakerRankings" (ieExtractAutomakerRankings now0) rfl rfl (by decide)).1⟩

/-- C1 — Fiscal rollover (code evaluation at the failing input): for the
real article title "BYD NEV sales in Dec: 420,398" published 2025-01-01
— a title naming a month, with no explicit 4-digit year, whose named
month 12 exceeds the publish month 1 — the title parser resolves the
year to 2025, not 2024: `TitleParser._extract_period` never applies the
fiscal rollover, and `_extract_time_period` returns its result
unchanged whenever the title parser succeeds.  The repository's own
test `test_dec_data_published_jan_prev_year` asserts 2024 on exactly
this input. -/
theorem C1_title_parser_skips_fiscal_rollover :
    (tpParse ⟨2025, 1, 1⟩ "BYD NEV sales in Dec: 420,398" (some ⟨2025, 1, 1⟩)).map
        (fun p => (p.brand, p.year, p.month)) = some ("BYD", 2025, some 12) ∧
    ieExtractTimePeriod ⟨2025, 1, 1⟩ "BYD NEV sales in Dec: 420,398" (some ⟨2025, 1, 1⟩) =
      (some 2025, some 12) ∧
    12 > 1 ∧ (2025 : ℕ) ≠ 2025 - 1 :=
  ⟨by decide, by decide, by decide, by decide⟩

/-- A two-element maximum is one of its arguments. -/
theorem Dec.maxD_cases (a b : Dec) : Dec.maxD a b = a ∨ Dec.maxD a b = b := by
  unfold Dec.maxD
  split
  · exact Or.inr rfl
  · exact Or.inl rfl

/-- The false case of the comparison bridge. -/
theorem Dec.leB_eq_false_iff (a b : Dec) : Dec.leB a b = false ↔ ¬ (a.toQ ≤ b.toQ) := by
  rw [← Dec.leB_iff]
  cases Dec.leB a b <;> simp

/-- A fold of `max` over a list lands on an element. -/
theorem foldl_maxD_mem : ∀ (vs : List Dec) (a : Dec), vs.foldl Dec.maxD a ∈ a :: vs := by
  intro vs
  induction vs with
  | nil => intro a; simp
  | cons b vs ih =>
    intro a
    have h := ih (Dec.maxD a b)
    rcases List.mem_cons.mp h with h1 | h1
    · rw [List.foldl_cons, h1]
      rcases Dec.maxD_cases a b with h2 | h2 <;> rw [h2] <;> simp
    · rw [List.foldl_cons]
      have : List.foldl Dec.maxD (Dec.maxD a b) vs ∈ vs := h1
      simp [List.mem_cons.mpr (Or.inr this)]

/-- Python `max(values)` returns an element of `values`. -/
theorem maxDecList_mem {l : List Dec} {v : Dec} (h : maxDecList l = some v) : v ∈ l := by
  cases l with
  | nil => simp [maxDecList] at h
  | cons a vs =>
    simp only [maxDecList, Option.some.injEq] at h
    subst h
    exact foldl_maxD_mem vs a

/-- C5 — Numeric-value heuristic, as it holds on the industry
extractor's `_extract_value`: when no "million" phrase is present, the
value that comes out of the digit-group fallback is never in the year
range 2000-2100 (such tokens are filtered out); an explicit
"(number) million" phrase yields the number times 1,000,000 and takes
precedence over raw digit groups; and on the spec's example title the
value is 1,200,000 and the resolved year 2025.  (The title parser's own
`_extract_value` lacks the year filter — see the counterexample.) -/
theorem C5_industry_value_never_year :
    (∀ title : String,
      scanNumBeforeLit "million" (lowerStr title).data = none →
      ∀ v, ieExtractValue title false = some v →
        ¬((2000 : ℚ) ≤ v.toQ ∧ v.toQ ≤ 2100)) ∧
    (∀ (title : String) (n : Dec),
      scanNumBeforeLit "million" (lowerStr title).data = some n →
      ieExtractValue title false = some (n.mulNat 1000000)) ∧
    (ieExtractValue "CAAM NEV sales: 1.2 million vehicles in Jan 2025" false =
       some (Dec.mulNat ⟨12, 1⟩ 1000000) ∧
     (Dec.mulNat ⟨12, 1⟩ 1000000).toQ = 1200000 ∧
     ieExtractTimePeriod ⟨2025, 2, 1⟩ "CAAM NEV sales: 1.2 million vehicles in Jan 2025"
       (some ⟨2025, 2, 1⟩) = (some 2025, some 1)) := by
  have h2000 : (Dec.ofNat 2000).toQ = (2000 : ℚ) := by rw [Dec.toQ_ofNat]; norm_num
  have h2100 : (Dec.ofNat 2100).toQ = (2100 : ℚ) := by rw [Dec.toQ_ofNat]; norm_num
  refine ⟨?_, ?_, by decide, by norm_num [Dec.mulNat, Dec.toQ], by decide⟩
  · intro title hmil v hv
    unfold ieExtractValue at hv
    rw [hmil] at hv
    simp only [if_neg (by simp : ¬false = true)] at hv
    have hmem := maxDecList_mem hv
    rw [List.mem_filterMap] at hmem
    obtain ⟨tok, _, htok⟩ := hmem
    revert htok
    match parseNumToken tok with
    | none => intro htok; simp at htok
    | some w =>
      intro htok
      simp only at htok
      split at htok
      · rename_i hcond
        cases htok
        rw [Bool.and_eq_true, Bool.not_eq_true'] at hcond
        rw [Bool.and_eq_false_iff] at hcond
        rintro ⟨hge, hle⟩
        rcases hcond.2 with h2 | h2
        · exact (Dec.leB_eq_false_iff _ _).mp h2 (by rw [h2000]; exact hge)
        · exact (Dec.leB_eq_false_iff _ _).mp h2 (by rw [h2100]; exact hle)
      · cases htok
  · intro title n hmil
    unfold ieExtractValue
    rw [hmil]
    simp

/-- Counterexample to C5 as stated: the claim quantifies over "the
shared value extractor", which its sources pin to both
`IndustryDataExtractor._extract_value` and
`TitleParser._extract_value`; the latter has no 2000-2100 filter, and on
the in-repo test title "China NEV sales in 2025: 12.4 million" it
returns the bare year 2025 as the primary value (12.4 falls below its
100 threshold, and it has no million handling). -/
theorem C5_counterexample :
    tpExtractValue "China NEV sales in 2025: 12.4 million" = some (Dec.ofNat 2025) ∧
    (2000 : ℚ) ≤ (Dec.ofNat 2025).toQ ∧ (Dec.ofNat 2025).toQ ≤ 2100 :=
  ⟨by decide, by norm_num [Dec.ofNat, Dec.toQ], by norm_num [Dec.ofNat, Dec.toQ]⟩

/-- Witness for C5: the no-million clause applied at a real title whose
value is 850,000, and the million clause applied at a real title
yielding 3.65 times one million. -/
theorem C5_witness :
    ¬((2000 : ℚ) ≤ (Dec.ofNat 850000).toQ ∧ (Dec.ofNat 850000).toQ ≤ 2100) ∧
    ieExtractValue "China passenger car inventory at end of Dec: 3.65 million" false =
      some (Dec.mulNat ⟨365, 2⟩ 1000000) :=
  ⟨C5_industry_value_never_year.1 "CPCA: NEV retail sales reach 850,000 in Jan" (by decide)
     (Dec.ofNat 850000) (by decide),
   C5_industry_value_never_year.2.1 "China passenger car inventory at end of Dec: 3.65 million"
     ⟨365, 2⟩ (by decide)⟩

/-- A list is a prefix of itself followed by anything. -/
theorem startsWithL_append_self : ∀ (x b : List Char), startsWithL x (x ++ b) = true := by
  intro x
  induction x with
  | nil => intro b; rfl
  | cons c cs ih => intro b; simp [startsWithL, ih b]

/-- A substring hit yields an occurrence index within bounds. -/
theorem containsL_exists {n h : List Char} (hc : containsL n h = true) :
    ∃ j, j ≤ h.length ∧ startsWithL n (h.drop j) = true := by
  induction h with
  | nil => exact ⟨0, by simp, hc⟩
  | cons c t ih =>
    rw [containsL, Bool.or_eq_true] at hc
    rcases hc with hc | hc
    · exact ⟨0, by simp, hc⟩
    · obtain ⟨j, hj, hs⟩ := ih hc
      exact ⟨j + 1, by simpa using hj, by simpa using hs⟩

/-- An occurrence at any index witnesses substring containment. -/
theorem containsL_of_startsWith {n h : List Char} (j : ℕ)
    (hs : startsWithL n (h.drop j) = true) : containsL n h = true := by
  induction h generalizing j with
  | nil => simpa [containsL] using hs
  | cons c t ih =>
    cases j with
    | zero =>
      rw [containsL, Bool.or_eq_true]
      exact Or.inl hs
    | succ j' =>
      rw [containsL, Bool.or_eq_true]
      exact Or.inr (ih j' (by simpa using hs))

/-- A decomposition witnesses substring containment. -/
theorem containsL_of_decomp (x a b : List Char) : containsL x (a ++ x ++ b) = true := by
  apply containsL_of_startsWith a.length
  rw [List.append_assoc, List.drop_left]
  exact startsWithL_append_self x b

/-- A member satisfying the predicate makes `find?` succeed. -/
theorem find?_isSome_of_mem {α : Type} {p : α → Bool} {l : List α} {x : α}
    (hm : x ∈ l) (hp : p x = true) : (l.find? p).isSome = true := by
  induction l with
  | nil => cases hm
  | cons a l ih =>
    rcases List.mem_cons.mp hm with rfl | hm'
    · simp [List.find?, hp]
    · by_cases ha : p a = true
      · simp [List.find?, ha]
      · rw [List.find?_cons_of_neg _ (by simpa using ha)]
        exact ih hm'

/-- Sufficient conditions for the two-group search to succeed: an
alternative of the first group at `i`, an alternative of the second at
`j` past its end, and no newline anywhere (so none in the gap). -/
theorem searchAThenB_true (alts1 alts2 : List String) (hay : String)
    (a1 a2 : String) (i j : ℕ)
    (h1 : a1 ∈ alts1) (h2 : a2 ∈ alts2)
    (hi : i ≤ hay.data.length) (hj : j ≤ hay.data.length)
    (ho1 : occursAt a1.data hay.data i = true)
    (ho2 : occursAt a2.data hay.data j = true)
    (hij : i + a1.data.length ≤ j)
    (hnl : ∀ c ∈ hay.data, c ≠ '\n') :
    searchAThenB alts1 alts2 hay = true := by
  unfold searchAThenB
  rw [List.any_eq_true]
  refine ⟨i, List.mem_range.mpr (by omega), ?_⟩
  rw [List.any_eq_true]
  refine ⟨a1, h1, ?_⟩
  rw [ho1, Bool.true_and, List.any_eq_true]
  refine ⟨j, List.mem_range.mpr (by omega), ?_⟩
  rw [decide_eq_true hij, Bool.true_and, Bool.and_eq_true]
  constructor
  · rw [List.all_eq_true]
    intro c hc
    have hmem : c ∈ hay.data :=
      List.mem_of_mem_take (List.mem_of_mem_drop hc)
    simpa using hnl c hmem
  · rw [List.any_eq_true]
    exact ⟨a2, h2, ho2⟩
/-- If a title classifies to the industry-wide battery table, then the
maker-specific group (which is tested first) did not match. -/
theorem classify_cbi_monthly_false :
    ∀ title summary : String,
      (classify title summary).article_type = ArticleType.CHINA_BATTERY_INSTALLATION →
      ((extractBatteryMaker (lowerStr title)).isSome &&
        batteryMakerMonthlyMatch (lowerStr title)) = false := by
  intro title summary h
  by_contra hcond
  rw [Bool.not_eq_false] at hcond
  unfold classify at h
  dsimp only at h
  by_cases h1 : matchAnyRE viaIndexPatterns (lowerStr title) = true
  · rw [if_pos h1] at h
    simp at h
  · rw [if_neg h1] at h
    by_cases h2 : matchAnyRE dealerInventoryPatterns (lowerStr title) = true
    · rw [if_pos h2] at h
      simp at h
    · rw [if_neg h2] at h
      by_cases h3 : matchAnyRE batteryMakerRankingsPatterns (lowerStr title) = true
      · rw [if_pos h3] at h
        simp at h
      · rw [if_neg h3] at h
        by_cases h4 : matchAnyRE automakerRankingsPatterns (lowerStr title) = true
        · rw [if_pos h4] at h
          simp at h
        · rw [if_neg h4] at h
          by_cases h5 : matchAnyRE nevSalesSummaryPatterns (lowerStr title) = true
          · rw [if_pos h5] at h
            simp at h
          · rw [if_neg h5] at h
            by_cases h6 : matchAnyRE plantExportsPatterns (lowerStr title) = true
            · rw [if_pos h6] at h
              simp at h
            · rw [if_neg h6] at h
              rw [if_pos hcond] at h
              simp at h

/-- C4, amended — Classifier precedence as the pattern list actually
gives it: for every title (without newlines) in which one of the nine
maker names of the monthly pattern alternation (catl, byd, lg, sk,
panasonic, calb, gotion, eve, sunwoda) occurs somewhere before the word
"battery", classification never resolves to the industry-wide
`ChinaBatteryInstallation` group: the maker-specific group is tested
first and its condition holds, so either it or an earlier group wins.
Makers known only to the classifier's maker list (svolt, lishen,
farasis) are not covered by the monthly patterns and can fall through to
the industry-wide table — see the counterexample. -/
theorem C4_amended_maker_precedence :
    ∀ (t s : String) (a b : List Char) (m : String),
      m ∈ monthlyMakerAlts →
      (lowerStr t).data = a ++ m.data ++ b →
      containsL ("battery".data) b = true →
      (∀ c ∈ (lowerStr t).data, c ≠ '\n') →
      (classify t s).article_type ≠ ArticleType.CHINA_BATTERY_INSTALLATION := by
  intro t s a b m hm hdec hbat hnl h
  have hfalse := classify_cbi_monthly_false t s h
  have hsub : ∀ x ∈ monthlyMakerAlts, x ∈ clsBATTERY_MAKERS := by decide
  have hmaker : (extractBatteryMaker (lowerStr t)).isSome = true := by
    unfold extractBatteryMaker
    rw [Option.isSome_map']
    exact find?_isSome_of_mem (hsub m hm)
      (by unfold containsSub; rw [hdec]; exact containsL_of_decomp m.data a b)
  have hmatch : batteryMakerMonthlyMatch (lowerStr t) = true := by
    unfold batteryMakerMonthlyMatch
    rw [Bool.or_eq_true]
    left
    obtain ⟨j, hj, hsb⟩ := containsL_exists hbat
    have hlen : (lowerStr t).data.length = a.length + m.data.length + b.length := by
      rw [hdec]; simp [List.length_append]; omega
    apply searchAThenB_true monthlyMakerAlts batteryWordAlts (lowerStr t) m "battery"
      a.length (a.length + m.data.length + j) hm (by decide)
    · omega
    · omega
    · unfold occursAt
      rw [hdec, List.append_assoc, List.drop_left]
      exact startsWithL_append_self m.data b
    · unfold occursAt
      rw [hdec]
      have harr : a ++ m.data ++ b = (a ++ m.data) ++ b := by simp [List.append_assoc]
      have hidx : a.length + m.data.length + j = (a ++ m.data).length + j := by
        simp [List.length_append]
      rw [harr, hidx, List.drop_append]
      exact hsb
    · omega
    · exact hnl
  rw [hmaker, hmatch] at hfalse
  simp at hfalse

/-- Counterexample to C4 as stated: "SVOLT China battery installations
hit 5 GWh in Jan" contains the known battery-maker name "svolt" and the
phrase "battery installations", yet classifies to the industry-wide
table `ChinaBatteryInstallation`, because "svolt" is absent from the
monthly pattern alternation and so the maker-specific group does not
match. -/
theorem C4_counterexample :
    (classify "SVOLT China battery installations hit 5 GWh in Jan" "").target_table =
      some "ChinaBatteryInstallation" ∧
    (classify "SVOLT China battery installations hit 5 GWh in Jan" "").article_type =
      ArticleType.CHINA_BATTERY_INSTALLATION ∧
    "svolt" ∈ clsBATTERY_MAKERS ∧
    containsSub "battery installations"
      (lowerStr "SVOLT China battery installations hit 5 GWh in Jan") = true := by
  refine ⟨by decide, by decide, by decide, by decide⟩

/-- Witness for the amended C4 at a maker the monthly patterns cover. -/
theorem C4_witness :
    (classify "CATL battery installations hit 25.6 GWh in Jan" "").article_type ≠
      ArticleType.CHINA_BATTERY_INSTALLATION :=
  C4_amended_maker_precedence "CATL battery installations hit 25.6 GWh in Jan" "" []
    (" battery installations hit 25.6 gwh in jan".data) "catl"
    (by decide) (by decide) (by decide) (by decide)

/-- No URL processed by the page loop was in the processed set it
started from (every page filters against a superset of it). -/
theorem runPages_urls_not_in_initial :
    ∀ (fetch : ℕ → List BArticle) (k p : ℕ) (pr : List String) (x : ℕ × List BArticle),
      x ∈ (runPagesAux fetch p k pr).1 → ∀ u ∈ pageUrls x, u ∉ pr := by
  intro fetch k
  induction k with
  | zero => intro p pr x hx; simp [runPagesAux] at hx
  | succ k ih =>
    intro p pr x hx u hu
    rw [runPagesAux] at hx
    simp only [List.mem_cons] at hx
    rcases hx with rfl | hx
    · intro hupr
      unfold pageUrls at hu
      rw [List.mem_map] at hu
      obtain ⟨art, hart, rfl⟩ := hu
      unfold pageNew at hart
      rw [List.mem_filter] at hart
      exact of_decide_eq_true hart.2 hupr
    · intro hupr
      exact ih (p + 1) (pr ++ (pageNew pr (fetch p)).map (·.url)) x hx u hu
        (List.mem_append.mpr (Or.inl hupr))

/-- Cross-page dedup within one run: the per-page processed URL lists
are pairwise disjoint, earlier to later. -/
theorem runPages_pairwise :
    ∀ (fetch : ℕ → List BArticle) (k p : ℕ) (pr : List String),
      List.Pairwise (fun x y => ∀ u ∈ pageUrls x, u ∉ pageUrls y)
        ((runPagesAux fetch p k pr).1) := by
  intro fetch k
  induction k with
  | zero => intro p pr; simp [runPagesAux]
  | succ k ih =>
    intro p pr
    rw [runPagesAux]
    rw [List.pairwise_cons]
    constructor
    · intro y hy u hu huy
      have h1 := runPages_urls_not_in_initial fetch k (p + 1)
        (pr ++ (pageNew pr (fetch p)).map (·.url)) y hy u huy
      exact h1 (List.mem_append.mpr (Or.inr hu))
    · exact ih (p + 1) (pr ++ (pageNew pr (fetch p)).map (·.url))

/-- C7, amended — Checkpoint idempotence as the code actually gives it:
within a single run of `backfill_pages`, a URL processed on an earlier
page is never processed again on a later page (the in-memory processed
set filters each page before processing).  The persisted checkpoint's
`processed_urls`, however, are not consulted on `--resume` — `main`
restores only `last_page + 1` (see `resumeStartPage`) and the in-memory
set starts empty — so a URL from the persisted set is not protected
across runs (see the counterexample). -/
theorem C7_amended_run_dedup :
    ∀ (fetch : ℕ → List BArticle) (s e i j : ℕ), i < j →
      ∀ (hj : j < (backfillPagesModel fetch s e).1.length) (u : String),
        u ∈ pageUrls ((backfillPagesModel fetch s e).1.getD i (0, [])) →
        u ∉ pageUrls ((backfillPagesModel fetch s e).1.getD j (0, [])) := by
  intro fetch s e i j hij hj u hu
  have hp := runPages_pairwise fetch (e + 1 - s) s []
  have hi : i < (backfillPagesModel fetch s e).1.length := lt_trans hij hj
  rw [List.getD_eq_getElem _ _ hi] at hu
  rw [List.getD_eq_getElem _ _ hj]
  exact (List.pairwise_iff_getElem.mp hp i j hi hj hij) u hu

/-- A collector page listing that repeats an already-checkpointed URL
on a later page (collectors may return duplicates). -/
def fetchDup : ℕ → List BArticle := fun _ => [⟨"https://cnevdata.com/a1"⟩]

/-- A checkpoint persisted by an interrupted run: page 1 done, one URL
recorded. -/
def interruptedCheckpoint : Checkpoint := ⟨1, ["https://cnevdata.com/a1"]⟩

/-- Counterexample to C7 as stated: resuming from a checkpoint whose
`processed_urls` holds this URL, the run starts at page 2 and processes
the same URL again, because the persisted set is never loaded into the
in-memory filter. -/
theorem C7_counterexample :
    resumeStartPage (some interruptedCheckpoint) = 2 ∧
    "https://cnevdata.com/a1" ∈ interruptedCheckpoint.processed_urls ∧
    (backfillPagesModel fetchDup (resumeStartPage (some interruptedCheckpoint)) 2).1 =
      [(2, [⟨"https://cnevdata.com/a1"⟩])] := by
  refine ⟨by decide, by decide, by decide⟩

/-- The same single article listed on every page. -/
def fetchW : ℕ → List BArticle := fun _ => [⟨"u"⟩]

/-- Witness for the amended C7: a URL processed on page 1 is filtered
out on page 2 of the same run. -/
theorem C7_amended_witness :
    "u" ∉ pageUrls ((backfillPagesModel fetchW 1 2).1.getD 1 (0, [])) :=
  C7_amended_run_dedup fetchW 1 2 0 1 (by decide) (by decide) "u" (by decide)

theorem lookupPV_map_swap (d : List (String × PyVal)) (k k' : String) (v : PyVal)
    (h : (k' == k) = false) :
    lookupPV (d.map (fun kv => if kv.1 == k' then (k', v) else kv)) k = lookupPV d k := by
  induction d with
  | nil => rfl
  | cons a d ih =>
    rw [List.map_cons]
    by_cases hc : (a.1 == k') = true
    · rw [if_pos hc]
      have ha : a.1 = k' := eq_of_beq hc
      simp only [lookupPV]
      rw [if_neg (by simp [h]), if_neg (by simp [ha, h])]
      exact ih
    · rw [if_neg hc]
      simp only [lookupPV]
      by_cases hk : (a.1 == k) = true
      · rw [if_pos hk, if_pos hk]
      · rw [if_neg hk, if_neg hk]
        exact ih

theorem lookupPV_append_single (d : List (String × PyVal)) (k k' : String) (v : PyVal)
    (h : (k' == k) = false) :
    lookupPV (d ++ [(k', v)]) k = lookupPV d k := by
  induction d with
  | nil =>
    simp only [List.nil_append, lookupPV]
    rw [if_neg (by simp [h])]
  | cons a d ih =>
    simp only [List.cons_append, lookupPV]
    by_cases hk : (a.1 == k) = true
    · rw [if_pos hk, if_pos hk]
    · rw [if_neg hk, if_neg hk]
      exact ih

theorem lookupPV_setKey_ne (d : List (String × PyVal)) (k k' : String) (v : PyVal)
    (h : (k' == k) = false) :
    lookupPV (setKey d k' v) k = lookupPV d k := by
  unfold setKey
  split
  · exact lookupPV_map_swap d k k' v h
  · exact lookupPV_append_single d k k' v h

theorem lookupPV_addCommonFields (data0 : List (String × PyVal)) (url st : String)
    (img : Option String) (pd : Option Date) (k : String)
    (h1 : ("sourceUrl" == k) = false) (h2 : ("sourceTitle" == k) = false)
    (h3 : ("publishedAt" == k) = false) (h4 : ("imageUrl" == k) = false) :
    lookupPV (addCommonFields data0 url st img pd) k = lookupPV data0 k := by
  unfold addCommonFields
  cases img with
  | none =>
    cases pd with
    | none =>
      dsimp only
      rw [lookupPV_setKey_ne _ _ _ _ h2, lookupPV_setKey_ne _ _ _ _ h1]
    | some d =>
      dsimp only
      rw [lookupPV_setKey_ne _ _ _ _ h3, lookupPV_setKey_ne _ _ _ _ h2,
        lookupPV_setKey_ne _ _ _ _ h1]
  | some u =>
    cases pd with
    | none =>
      dsimp only
      rw [lookupPV_setKey_ne _ _ _ _ h4, lookupPV_setKey_ne _ _ _ _ h2,
        lookupPV_setKey_ne _ _ _ _ h1]
    | some d =>
      dsimp only
      rw [lookupPV_setKey_ne _ _ _ _ h4, lookupPV_setKey_ne _ _ _ _ h3,
        lookupPV_setKey_ne _ _ _ _ h2, lookupPV_setKey_ne _ _ _ _ h1]

/-- A battery-maker-rankings classification record, as the classifier's
third branch produces for a title. -/
def bmrClsOf (title : String) : ClassificationResult :=
  { article_type := .BATTERY_MAKER_RANKINGS, target_table := some "BatteryMakerRankings",
    needs_ocr := true, dimensions := [("scope", clsScope (lowerStr title))],
    confidence := 0.9, ocr_data_type := some "rankings" }

lemma classify_rankings_eq (title summary : String)
    (h : (classify title summary).article_type = ArticleType.AUTOMAKER_RANKINGS ∨
         (classify title summary).article_type = ArticleType.BATTERY_MAKER_RANKINGS) :
    classify title summary = amrCls ∨ classify title summary = bmrClsOf title := by
  have hm := classify_mem_branches title summary
  revert h hm
  generalize classify title summary = c
  intro h hm
  fin_cases hm <;> simp_all [amrCls, bmrClsOf]

/-- The stub record `_extract_automaker_rankings` builds. -/
def amrStub (y m : ℕ) : List (String × PyVal) :=
  [("_needs_ocr", PyVal.bool true), ("_ocr_type", PyVal.str "rankings"),
   ("year", PyVal.int (y : ℤ)), ("month", PyVal.int (m : ℤ)),
   ("dataSource", PyVal.str "CPCA")]

/-- The stub record `_extract_battery_maker_rankings` builds when both
year and month resolve. -/
def bmrStub (title : String) (y m : ℕ) : List (String × PyVal) :=
  [("_needs_ocr", PyVal.bool true), ("_ocr_type", PyVal.str "rankings"),
   ("year", PyVal.int (y : ℤ)), ("month", PyVal.int (m : ℤ)),
   ("dataSource", PyVal.str
     (if clsScope (lowerStr title) == "CHINA" then "CABIA" else "SNE")),
   ("scope", PyVal.str (clsScope (lowerStr title)))]

lemma amrRoutine_eq (now : Date) (title summary : String) (cls : ClassificationResult)
    (pd : Option Date) (y m : ℕ)
    (hy : (ieExtractTimePeriod now title pd).1 = some y)
    (hm : (ieExtractTimePeriod now title pd).2 = some m)
    (hy0 : (y == 0) = false) (hm0 : (m == 0) = false) :
    ieExtractAutomakerRankings now title summary cls pd = some (amrStub y m) := by
  simp only [ieExtractAutomakerRankings]
  rw [hy, hm]
  simp [hy0, hm0, amrStub]

lemma bmrRoutine_eq (now : Date) (title summary : String) (pd : Option Date) (y m : ℕ)
    (hy : (ieExtractTimePeriod now title pd).1 = some y)
    (hm : (ieExtractTimePeriod now title pd).2 = some m)
    (hy0 : (y == 0) = false) :
    ieExtractBatteryMakerRankings now title summary (bmrClsOf title) pd =
      some (bmrStub title y m) := by
  simp only [ieExtractBatteryMakerRankings, bmrClsOf]
  rw [hy, hm]
  simp [hy0, bmrStub, List.find?]

lemma ieExtract_amr (now : Date) (title summary url st : String) (img : Option String)
    (pd : Option Date) (y m : ℕ)
    (hy : (ieExtractTimePeriod now title pd).1 = some y)
    (hm : (ieExtractTimePeriod now title pd).2 = some m)
    (hy0 : (y == 0) = false) (hm0 : (m == 0) = false) :
    ieExtract now title summary amrCls url st img pd =
      some { success := true, table_name := "AutomakerRankings",
             data := addCommonFields (amrStub y m) url st img pd, error := none } := by
  have ht : amrCls.target_table = some "AutomakerRankings" := rfl
  have hl : (ieExtractors now).lookup "AutomakerRankings" =
      some (ieExtractAutomakerRankings now) := rfl
  have hr := amrRoutine_eq now title summary amrCls pd y m hy hm hy0 hm0
  simp [ieExtract, ht, hl, hr]

lemma ieExtract_bmr (now : Date) (title summary url st : String) (img : Option String)
    (pd : Option Date) (y m : ℕ)
    (hy : (ieExtractTimePeriod now title pd).1 = some y)
    (hm : (ieExtractTimePeriod now title pd).2 = some m)
    (hy0 : (y == 0) = false) :
    ieExtract now title summary (bmrClsOf title) url st img pd =
      some { success := true, table_name := "BatteryMakerRankings",
             data := addCommonFields (bmrStub title y m) url st img pd, error := none } := by
  have ht : (bmrClsOf title).target_table = some "BatteryMakerRankings" := rfl
  have hl : (ieExtractors now).lookup "BatteryMakerRankings" =
      some (ieExtractBatteryMakerRankings now) := rfl
  have hr := bmrRoutine_eq now title summary pd y m hy hm hy0
  simp [ieExtract, ht, hl, hr]

lemma lookup_amrStub_common (url st : String) (img : Option String) (pd : Option Date)
    (y m : ℕ) :
    lookupPV (addCommonFields (amrStub y m) url st img pd) "_needs_ocr" =
      some (PyVal.bool true) ∧
    lookupPV (addCommonFields (amrStub y m) url st img pd) "year" =
      some (PyVal.int (y : ℤ)) ∧
    lookupPV (addCommonFields (amrStub y m) url st img pd) "month" =
      some (PyVal.int (m : ℤ)) := by
  refine ⟨?_, ?_, ?_⟩
  · rw [lookupPV_addCommonFields (amrStub y m) url st img pd "_needs_ocr" rfl rfl rfl rfl]
    rfl
  · rw [lookupPV_addCommonFields (amrStub y m) url st img pd "year" rfl rfl rfl rfl]
    rfl
  · rw [lookupPV_addCommonFields (amrStub y m) url st img pd "month" rfl rfl rfl rfl]
    rfl

lemma lookup_bmrStub_common (title url st : String) (img : Option String) (pd : Option Date)
    (y m : ℕ) :
    lookupPV (addCommonFields (bmrStub title y m) url st img pd) "_needs_ocr" =
      some (PyVal.bool true) ∧
    lookupPV (addCommonFields (bmrStub title y m) url st img pd) "year" =
      some (PyVal.int (y : ℤ)) ∧
    lookupPV (addCommonFields (bmrStub title y m) url st img pd) "month" =
      some (PyVal.int (m : ℤ)) := by
  refine ⟨?_, ?_, ?_⟩
  · rw [lookupPV_addCommonFields (bmrStub title y m) url st img pd "_needs_ocr" rfl rfl rfl rfl]
    rfl
  · rw [lookupPV_addCommonFields (bmrStub title y m) url st img pd "year" rfl rfl rfl rfl]
    rfl
  · rw [lookupPV_addCommonFields (bmrStub title y m) url st img pd "month" rfl rfl rfl rfl]
    rfl

/-- C2 — Rankings articles always defer to OCR: when a title classifies
to AUTOMAKER_RANKINGS or BATTERY_MAKER_RANKINGS and its period resolves
(year and month both found and nonzero), the classification has
`needs_ocr = true` and OCR prompt kind "rankings", extraction succeeds
with a stub record tagged `_needs_ocr` that carries the resolved period,
and the backfill pipeline never reaches the direct submission call. -/
theorem C2_rankings_need_ocr_stub (now : Date) (title summary url : String)
    (imageUrl : Option String) (pd : Option Date) (y m : ℕ)
    (hty : (classify title summary).article_type = ArticleType.AUTOMAKER_RANKINGS ∨
           (classify title summary).article_type = ArticleType.BATTERY_MAKER_RANKINGS)
    (hy : (ieExtractTimePeriod now title pd).1 = some y)
    (hm : (ieExtractTimePeriod now title pd).2 = some m)
    (hy0 : (y == 0) = false) (hm0 : (m == 0) = false) :
    (classify title summary).needs_ocr = true ∧
    (classify title summary).ocr_data_type = some "rankings" ∧
    ((classify title summary).target_table = some "AutomakerRankings" ∨
     (classify title summary).target_table = some "BatteryMakerRankings") ∧
    (∃ r : ExtractionResult,
      ieExtract now title summary (classify title summary) url title imageUrl pd = some r ∧
      r.success = true ∧
      lookupPV r.data "_needs_ocr" = some (PyVal.bool true) ∧
      lookupPV r.data "year" = some (PyVal.int (y : ℤ)) ∧
      lookupPV r.data "month" = some (PyVal.int (m : ℤ))) ∧
    reachesIndustrySubmit now title summary url imageUrl pd = false := by
  rcases classify_rankings_eq title summary hty with hc | hc
  · have hext := ieExtract_amr now title summary url title imageUrl pd y m hy hm hy0 hm0
    have hlk := lookup_amrStub_common url title imageUrl pd y m
    refine ⟨by rw [hc]; rfl, by rw [hc]; rfl, Or.inl (by rw [hc]; rfl), ?_, ?_⟩
    · exact ⟨_, by rw [hc]; exact hext, rfl, hlk.1, hlk.2.1, hlk.2.2⟩
    · have hii : isIndustryTable "AutomakerRankings" = true := rfl
      simp [reachesIndustrySubmit, hc, hext, hii, hlk.1, pyTruthy]
      rfl
  · have hext := ieExtract_bmr now title summary url title imageUrl pd y m hy hm hy0
    have hlk := lookup_bmrStub_common title url title imageUrl pd y m
    refine ⟨by rw [hc]; rfl, by rw [hc]; rfl, Or.inr (by rw [hc]; rfl), ?_, ?_⟩
    · exact ⟨_, by rw [hc]; exact hext, rfl, hlk.1, hlk.2.1, hlk.2.2⟩
    · have hii : isIndustryTable "BatteryMakerRankings" = true := rfl
      simp [reachesIndustrySubmit, hc, hext, hii, hlk.1, pyTruthy]
      rfl

/-- Witness for C2 at the spec's end-to-end example title: the article
classifies as automaker rankings with table "AutomakerRankings", the
period resolves to January 2025, and the conclusion of the theorem holds
at this input. -/
theorem C2_rankings_need_ocr_stub_witness :
    (classify "CPCA top-selling automakers Jan 2025" "").article_type =
      ArticleType.AUTOMAKER_RANKINGS ∧
    (classify "CPCA top-selling automakers Jan 2025" "").target_table =
      some "AutomakerRankings" ∧
    ((classify "CPCA top-selling automakers Jan 2025" "").needs_ocr = true ∧
     (classify "CPCA top-selling automakers Jan 2025" "").ocr_data_type = some "rankings" ∧
     ((classify "CPCA top-selling automakers Jan 2025" "").target_table =
        some "AutomakerRankings" ∨
      (classify "CPCA top-selling automakers Jan 2025" "").target_table =
        some "BatteryMakerRankings") ∧
     (∃ r : ExtractionResult,
       ieExtract now0 "CPCA top-selling automakers Jan 2025" ""
         (classify "CPCA top-selling automakers Jan 2025" "")
         "u" "CPCA top-selling automakers Jan 2025" none (some ⟨2025, 2, 1⟩) = some r ∧
       r.success = true ∧
       lookupPV r.data "_needs_ocr" = some (PyVal.bool true) ∧
       lookupPV r.data "year" = some (PyVal.int (2025 : ℤ)) ∧
       lookupPV r.data "month" = some (PyVal.int (1 : ℤ))) ∧
     reachesIndustrySubmit now0 "CPCA top-selling automakers Jan 2025" "" "u" none
       (some ⟨2025, 2, 1⟩) = false) :=
  ⟨by decide, by decide,
   C2_rankings_need_ocr_stub now0 "CPCA top-selling automakers Jan 2025" "" "u" none
     (some ⟨2025, 2, 1⟩) 2025 1 (Or.inl (by decide)) (by decide) (by decide) rfl rfl⟩
